import Mathlib

/-! # sshsudo: the expect scanner, the policy probe and the sudo handshake

A shallow embedding of `main.go` (package `sshsudo`).  The ssh transport, the
password callback, `uuid.New()` and `shq.Arg` are collaborators outside the
package; they appear here as scripted behaviour (what each call returns) and as
function parameters.  Every call that touches the outside world is recorded in a
trace, so that orderings and resource states can be stated.
-/

namespace Sshsudo

/-! ## Bytes, strings, errors -/

/-- A byte.  Only equality of bytes is ever used; carriage return is `13`. -/
abbrev Byte := Nat

/-- A Go `string` / `[]byte`: a sequence of bytes. -/
abbrev GoString := List Byte

/-- The bytes of an ASCII literal of the source. -/
def ascii (s : String) : GoString := s.toList.map Char.toNat

/-- Go `error` values that occur in the package.  Sentinels are compared by
identity, `wrapf` is the value built by `fmt.Errorf(msg + "%w", cause)`, and
`passwordCallbackFailure e` is `PasswordCallbackFailureError{e}`;
`passwordCallbackFailureZero` is the zero value `PasswordCallbackFailureError{}`. -/
inductive GoError where
  | eof
  | errShortWrite
  | errNoSudoPrompt
  | errNoReadyFlag
  | exitError (status : Nat)
  | other (tag : Nat)
  | wrapf (msg : String) (cause : GoError)
  | passwordCallbackFailureZero
  | passwordCallbackFailure (wrapped : GoError)
  deriving DecidableEq, Repr

namespace GoError

/-- The method `Error()`. -/
def Error : GoError → String
  | eof => "EOF"
  | errShortWrite => "short write"
  | errNoSudoPrompt => "no sudo prompt found when expected"
  | errNoReadyFlag => "no READY flag found when expected"
  | exitError _ => "Process exited with status"
  | other _ => "error"
  | wrapf msg cause => msg ++ cause.Error
  | passwordCallbackFailureZero => "password callback returned an error"
  | passwordCallbackFailure _ => "password callback returned an error"

/-- The function `errors.Unwrap`: the `Unwrap()` method where the type has one. -/
def Unwrap : GoError → Option GoError
  | wrapf _ cause => some cause
  | passwordCallbackFailure wrapped => some wrapped
  | _ => none

/-- The method `Is(target)`, which only `PasswordCallbackFailureError` defines:
`_, ok := target.(PasswordCallbackFailureError); return ok`. -/
def IsMethod : GoError → GoError → Bool
  | passwordCallbackFailure _, passwordCallbackFailure _ => true
  | passwordCallbackFailure _, passwordCallbackFailureZero => true
  | passwordCallbackFailureZero, passwordCallbackFailure _ => true
  | passwordCallbackFailureZero, passwordCallbackFailureZero => true
  | _, _ => false

/-- The type assertion `err.(*ssh.ExitError)`: it looks at the dynamic type only. -/
def isExitError : GoError → Bool
  | exitError _ => true
  | _ => false

end GoError

/-- The function `errors.Is(err, target)`: walk the `Unwrap` chain, at each link
test equality and the link's own `Is` method.  (Go compares the values built by
`fmt.Errorf` by identity, here they are compared by structure; the statements
below only ever compare against sentinels and `PasswordCallbackFailureError{}`.) -/
def errorsIs : GoError → GoError → Bool
  | .wrapf msg cause, target =>
      decide (GoError.wrapf msg cause = target) || errorsIs cause target
  | .passwordCallbackFailure wrapped, target =>
      decide (GoError.passwordCallbackFailure wrapped = target)
        || GoError.IsMethod (.passwordCallbackFailure wrapped) target
        || errorsIs wrapped target
  | err, target => decide (err = target) || GoError.IsMethod err target

/-! ## Readers -/

/-- The two output streams of a session. -/
inductive Std where
  | out
  | err
  deriving DecidableEq, Repr

/-- What one call `r.Read(buf)` with `len(buf) = 1` hands back: `byte = some b`
stands for `n = 1` with `buf[0] = b`, `byte = none` for `n = 0`. -/
structure ReadResult where
  byte : Option Byte
  err : Option GoError
  deriving DecidableEq, Repr

/-- The calls that touch the outside world, each with the error it returned
(`none` for `nil`).  A session is numbered by the `NewSession` call that asked for
it; `write` also records the count the write returned. -/
inductive Event where
  | newSession (id : Nat) (err : Option GoError)
  | run (id : Nat) (cmd : GoString) (err : Option GoError)
  | stdinPipe (id : Nat) (err : Option GoError)
  | stdoutPipe (id : Nat) (err : Option GoError)
  | stderrPipe (id : Nat) (err : Option GoError)
  | start (id : Nat) (cmd : GoString) (err : Option GoError)
  | read (id : Nat) (s : Std) (res : ReadResult)
  | callback (err : Option GoError)
  | write (id : Nat) (data : GoString) (n : Nat) (err : Option GoError)
  | closeStdin (id : Nat)
  | closeSession (id : Nat)
  deriving DecidableEq, Repr

/-- The events so far, oldest first. -/
abbrev Trace := List Event

/-- An `io.Reader` over a scripted stream: the results its next reads deliver, and
the error every read returns once these are used up (`io.EOF` for a stream that
ended). -/
structure Reader where
  id : Nat
  std : Std
  pending : List ReadResult
  endErr : GoError
  deriving DecidableEq, Repr

/-- One call of `r.Read(buf)`, `buf` one byte long. -/
def Reader.Read (r : Reader) (t : Trace) : ReadResult × Reader × Trace :=
  match r.pending with
  | [] =>
      let res : ReadResult := ⟨none, some r.endErr⟩
      (res, r, t ++ [Event.read r.id r.std res])
  | res :: rest => (res, { r with pending := rest }, t ++ [Event.read r.id r.std res])

/-- A stream that delivers the bytes of `s`, one per read, and then ends. -/
def Reader.ofBytes (id : Nat) (std : Std) (s : List Byte) (endErr : GoError) : Reader :=
  ⟨id, std, s.map (fun b => ⟨some b, none⟩), endErr⟩

/-- The function `expectOnly`. -/
def expectOnly (r : Reader) (expected : List Byte) (t : Trace) :
    (Bool × Option GoError) × Reader × Trace :=
  match expected with
  | [] => ((true, none), r, t)
  | e :: rest =>
    match hread : r.Read t with
    | (res, r1, t1) =>
      match herr : res.err with
      | some err => ((false, some (GoError.wrapf "error while reading: " err)), r1, t1)
      | none =>
        match res.byte with
        | some b =>
          if b ≠ 13 then
            if e ≠ b then ((false, none), r1, t1)
            else expectOnly r1 rest t1
          else expectOnly r1 (e :: rest) t1
        | none => expectOnly r1 (e :: rest) t1
termination_by r.pending.length
decreasing_by
  all_goals
    unfold Reader.Read at hread
    cases hp : r.pending with
    | nil =>
        rw [hp] at hread
        cases hread
        cases herr
    | cons x xs =>
        rw [hp] at hread
        cases hread
        simp

/-! ## The transport -/

/-- How the remote side of one session behaves: what each call on the session
returns (`waitErr` is what `Wait` returns once the command has been started), what
its two output streams deliver, and what a write to its input stream returns
(`n`, `err`). -/
structure SessionScript where
  waitErr : Option GoError
  stdinPipeErr : Option GoError
  stdoutPipeErr : Option GoError
  stderrPipeErr : Option GoError
  startErr : Option GoError
  stdout : List ReadResult
  stdoutEnd : GoError
  stderr : List ReadResult
  stderrEnd : GoError
  write : GoString → Nat × Option GoError

/-- What `session.Run(cmd)` returns: the error of `Start` if starting fails, else what
`Wait` returns. -/
def SessionScript.runResult (s : SessionScript) : Option GoError :=
  match s.startErr with
  | some err => some err
  | none => s.waitErr

/-- A `*ssh.Session`: sessions are numbered by the `NewSession` call that made them. -/
structure Session where
  id : Nat
  script : SessionScript

/-- The `io.WriteCloser` that `session.StdinPipe()` returns. -/
structure Stdin where
  id : Nat
  write : GoString → Nat × Option GoError

/-- The `*ssh.Client` together with the state of everything opened on it:
`script k` is what the `k`-th call of `NewSession` returns, `calls` counts the calls
made so far, `openSessions` and `openStdin` list the sessions and input pipes that
are open. -/
structure World where
  script : Nat → Except GoError SessionScript
  calls : Nat
  openSessions : List Nat
  openStdin : List Nat
  trace : Trace

namespace World

/-- Record an event. -/
def log (w : World) (e : Event) : World := { w with trace := w.trace ++ [e] }

/-- The call `client.NewSession()`. -/
def NewSession (w : World) : Except GoError Session × World :=
  match w.script w.calls with
  | .error err =>
      (.error err,
        { w with calls := w.calls + 1, trace := w.trace ++ [Event.newSession w.calls (some err)] })
  | .ok s =>
      (.ok ⟨w.calls, s⟩,
        { w with calls := w.calls + 1, openSessions := w.openSessions ++ [w.calls],
                 trace := w.trace ++ [Event.newSession w.calls none] })

end World

namespace Session

/-- The call `session.Run(cmd)`, which is `Start` followed by `Wait`.  If `Start`
fails, `Run` returns its error and the session is as open as before.  Otherwise
`Wait` returns (with nil, an `*ssh.ExitError` or another error) only once the
channel of the session has been closed on both sides: the session is then no
longer open, although `Close` was not called. -/
def Run (session : Session) (cmd : GoString) (w : World) : Option GoError × World :=
  match session.script.startErr with
  | some err => (some err, w.log (Event.run session.id cmd (some err)))
  | none =>
      (session.script.waitErr,
        { w with openSessions := w.openSessions.filter (fun i => i ≠ session.id),
                 trace := w.trace ++ [Event.run session.id cmd session.script.waitErr] })

/-- The call `session.Start(cmd)`. -/
def Start (session : Session) (cmd : GoString) (w : World) : Option GoError × World :=
  (session.script.startErr, w.log (Event.start session.id cmd session.script.startErr))

/-- The call `session.StdinPipe()`. -/
def StdinPipe (session : Session) (w : World) : Except GoError Stdin × World :=
  match session.script.stdinPipeErr with
  | some err => (.error err, w.log (Event.stdinPipe session.id (some err)))
  | none =>
      (.ok ⟨session.id, session.script.write⟩,
        { w with openStdin := w.openStdin ++ [session.id],
                 trace := w.trace ++ [Event.stdinPipe session.id none] })

/-- The call `session.StdoutPipe()`. -/
def StdoutPipe (session : Session) (w : World) : Except GoError Reader × World :=
  match session.script.stdoutPipeErr with
  | some err => (.error err, w.log (Event.stdoutPipe session.id (some err)))
  | none =>
      (.ok ⟨session.id, Std.out, session.script.stdout, session.script.stdoutEnd⟩,
        w.log (Event.stdoutPipe session.id none))

/-- The call `session.StderrPipe()`. -/
def StderrPipe (session : Session) (w : World) : Except GoError Reader × World :=
  match session.script.stderrPipeErr with
  | some err => (.error err, w.log (Event.stderrPipe session.id (some err)))
  | none =>
      (.ok ⟨session.id, Std.err, session.script.stderr, session.script.stderrEnd⟩,
        w.log (Event.stderrPipe session.id none))

/-- The call `session.Close()`. -/
def Close (session : Session) (w : World) : World :=
  { w with openSessions := w.openSessions.filter (fun i => i ≠ session.id),
           trace := w.trace ++ [Event.closeSession session.id] }

end Session

namespace Stdin

/-- The call `stdin.Close()`. -/
def Close (stdin : Stdin) (w : World) : World :=
  { w with openStdin := w.openStdin.filter (fun i => i ≠ stdin.id),
           trace := w.trace ++ [Event.closeStdin stdin.id] }

end Stdin

/-- The call `io.Copy(stdin, strings.NewReader(data))`, of which only the error is
used: the string reader hands all of `data` to one `Write`, and a write that is
short without an error becomes `io.ErrShortWrite`. -/
def ioCopy (stdin : Stdin) (data : GoString) (w : World) : Option GoError × World :=
  match data with
  | [] => (none, w)
  | _ :: _ =>
    match stdin.write data with
    | (m, some err) => (some err, w.log (Event.write stdin.id data m (some err)))
    | (m, none) =>
        if m ≠ data.length then
          (some GoError.errShortWrite, w.log (Event.write stdin.id data m none))
        else (none, w.log (Event.write stdin.id data m none))

/-! ## The package -/

/-- The function `openSessionPipes`. -/
def openSessionPipes (session : Session) (w : World) :
    Except GoError (Stdin × Reader × Reader) × World :=
  match session.StdinPipe w with
  | (.error err, w) => (.error err, w)
  | (.ok stdin, w) =>
    match session.StdoutPipe w with
    | (.error err, w) => (.error err, stdin.Close w)
    | (.ok stdout, w) =>
      match session.StderrPipe w with
      | (.error err, w) => (.error err, stdin.Close w)
      | (.ok stderr, w) => (.ok (stdin, stdout, stderr), w)

/-- The function `CheckSudoNeedsPassword`. -/
def CheckSudoNeedsPassword (w : World) : Except GoError Bool × World :=
  match w.NewSession with
  | (.error err, w) => (.error err, w)
  | (.ok session, w) =>
    match session.Run (ascii "sudo -n -v") w with
    | (some err, w) =>
        if err.isExitError then (.ok true, w)
        else
          (.error (GoError.wrapf
            "Could not run sudo -n -v to check for sudo password requirement: " err), w)
    | (none, w) => (.ok false, w)

/-- The five values `SudoRun` returns. -/
structure RunResult where
  stdin : Option Stdin
  stdout : Option Reader
  stderr : Option Reader
  session : Option Session
  err : Option GoError

/-- The return `nil, nil, nil, nil, err`. -/
def RunResult.failed (err : GoError) : RunResult := ⟨none, none, none, none, some err⟩

/-- The type `SudoPasswordCallback`, by what a call of it returns. -/
abbrev SudoPasswordCallback := Except GoError GoString

/-- A call `passwordCallback()`. -/
def callPassword (passwordCallback : SudoPasswordCallback) (w : World) :
    Except GoError GoString × World :=
  (passwordCallback,
    w.log (Event.callback (match passwordCallback with | .error err => some err | .ok _ => none)))

/-- The function `SudoStaticPasswordCallback`. -/
def SudoStaticPasswordCallback (pwd : GoString) : SudoPasswordCallback := .ok pwd

/-- The loop of `SudoRun` that fills `commandline`: the state is the builder and
the variable `spc`. -/
def SudoRun.commandline (q : GoString → GoString) (command : List GoString) : GoString :=
  (command.foldl
    (fun (st : GoString × GoString) c => (st.1 ++ (st.2 ++ q c), ascii " ")) ([], ascii "")).1

/-- The string `SudoRun` hands to `session.Start`; `q s` is `shq.Arg(s)` as `%s`
prints it. -/
def SudoRun.startCommand (sudoNeedsPass : Bool) (uuid : GoString) (q : GoString → GoString)
    (command : List GoString) : GoString :=
  let randomString := if sudoNeedsPass then uuid else ascii ""
  let sudoPasswordOpt := if sudoNeedsPass then ascii "-p " ++ q randomString else ascii "-n"
  ascii "sudo -S " ++ sudoPasswordOpt ++ ascii " /bin/sh -c 'echo READY;'"
    ++ q (SudoRun.commandline q command)

/-- The block `if sudoNeedsPass { ... }` of `SudoRun` (lines 159 to 176): the error
it returns with, if it returns, and the error stream after it. -/
def SudoRun.prompt (sudoNeedsPass : Bool) (randomString : GoString)
    (passwordCallback : SudoPasswordCallback) (stdin : Stdin) (stderr : Reader) (w : World) :
    Option GoError × Reader × World :=
  if sudoNeedsPass then
    match expectOnly stderr randomString w.trace with
    | ((_, some err), stderr, t) =>
        (some (GoError.wrapf "error while expecting sudo prompt: " err), stderr,
          { w with trace := t })
    | ((false, none), stderr, t) => (some GoError.errNoSudoPrompt, stderr, { w with trace := t })
    | ((true, none), stderr, t) =>
      match callPassword passwordCallback { w with trace := t } with
      | (.error err, w) => (some (GoError.passwordCallbackFailure err), stderr, w)
      | (.ok pwd, w) =>
        match ioCopy stdin (pwd ++ ascii "\n") w with
        | (some err, w) => (some err, stderr, w)
        | (none, w) => (none, stderr, w)
  else (none, stderr, w)

/-- Lines 140 to 187 of `SudoRun`, the part that runs under both `defer`s; the
Boolean is the variable `success` at the return. -/
def SudoRun.body (sudoNeedsPass : Bool) (passwordCallback : SudoPasswordCallback)
    (uuid : GoString) (q : GoString → GoString) (command : List GoString)
    (session : Session) (stdin : Stdin) (stdout stderr : Reader) (w : World) :
    RunResult × Bool × World :=
  let randomString := if sudoNeedsPass then uuid else ascii ""
  match session.Start (SudoRun.startCommand sudoNeedsPass uuid q command) w with
  | (some err, w) => (RunResult.failed (GoError.wrapf "failed to start session: " err), false, w)
  | (none, w) =>
    match SudoRun.prompt sudoNeedsPass randomString passwordCallback stdin stderr w with
    | (some err, _, w) => (RunResult.failed err, false, w)
    | (none, stderr, w) =>
      match expectOnly stdout (ascii "READY\n") w.trace with
      | ((_, some err), _, t) =>
          (RunResult.failed (GoError.wrapf "error while expecting READY flag: " err), false,
            { w with trace := t })
      | ((false, none), _, t) => (RunResult.failed GoError.errNoReadyFlag, false, { w with trace := t })
      | ((true, none), stdout, t) =>
          (⟨some stdin, some stdout, some stderr, some session, none⟩, true, { w with trace := t })

/-- Lines 130 to 187 of `SudoRun`, the part that runs under the first `defer`;
the second `defer` (close `stdin` unless `success`) runs when the body returns. -/
def SudoRun.withSession (sudoNeedsPass : Bool) (passwordCallback : SudoPasswordCallback)
    (uuid : GoString) (q : GoString → GoString) (command : List GoString)
    (session : Session) (w : World) : RunResult × Bool × World :=
  match openSessionPipes session w with
  | (.error err, w) => (RunResult.failed err, false, w)
  | (.ok (stdin, stdout, stderr), w) =>
    match SudoRun.body sudoNeedsPass passwordCallback uuid q command session stdin stdout stderr w with
    | (res, success, w) => (res, success, if !success then stdin.Close w else w)

/-- The function `SudoRun`.  `uuid` is the string `uuid.New().String()` yields when
it is called, `q` is `shq.Arg`.  The first `defer` (close the session unless
`success`) runs when the rest returns. -/
def SudoRun (w : World) (passwordCallback : SudoPasswordCallback) (uuid : GoString)
    (q : GoString → GoString) (command : List GoString) : RunResult × World :=
  match CheckSudoNeedsPassword w with
  | (.error err, w) => (RunResult.failed err, w)
  | (.ok sudoNeedsPass, w) =>
    match w.NewSession with
    | (.error err, w) =>
        (RunResult.failed (GoError.wrapf "could not start an ssh session " err), w)
    | (.ok session, w) =>
      match SudoRun.withSession sudoNeedsPass passwordCallback uuid q command session w with
      | (res, success, w) => (res, if !success then session.Close w else w)

/-- The function `SudoShell`: the arguments are `"sh"` and `"-"`. -/
def SudoShell (w : World) (passwordCallback : SudoPasswordCallback) (uuid : GoString)
    (q : GoString → GoString) : RunResult × World :=
  SudoRun w passwordCallback uuid q [ascii "sh", ascii "-"]

/-! ## Notions used in the statements -/

/-- A byte sequence with every carriage return (`0x0D`) removed. -/
def strip (s : List Byte) : List Byte := s.filter (fun b => b ≠ 13)

/-- The bytes that a list of read results delivered. -/
def bytesOf (rs : List ReadResult) : List Byte := rs.filterMap (fun res => res.byte)

/-- `InsertCR s s'`: the sequence `s'` is `s` with carriage returns inserted, any
number of them at any positions. -/
inductive InsertCR : List Byte → List Byte → Prop where
  | nil : InsertCR [] []
  | keep (b : Byte) {s s' : List Byte} : InsertCR s s' → InsertCR (b :: s) (b :: s')
  | cr {s s' : List Byte} : InsertCR s s' → InsertCR s (13 :: s')

/-- The read events of stream `std` of session `id` for the results `xs`. -/
def readEvents (id : Nat) (std : Std) (xs : List ReadResult) : Trace :=
  xs.map (Event.read id std)

/-- The results of the reads of stream `std` of session `id` that a trace records. -/
def readsOf (t : Trace) (id : Nat) (std : Std) : List ReadResult :=
  t.filterMap (fun ev =>
    match ev with
    | Event.read i s res => if i = id ∧ s = std then some res else none
    | _ => none)

/-- The bytes that a trace records as read from stream `std` of session `id`. -/
def consumed (t : Trace) (id : Nat) (std : Std) : List Byte := bytesOf (readsOf t id std)

/-- What a scan for `E` of the stream `p` did, started at trace `t` and ended in
`o`: it took the first `k` results of the stream (and, when these ran out, the
end-of-stream error `tl`), and the outcome tells how the bytes taken relate to `E`. -/
def ScanPost (id : Nat) (std : Std) (ee : GoError) (p : List ReadResult) (E : List Byte)
    (t : Trace) (o : (Bool × Option GoError) × Reader × Trace) : Prop :=
  ∃ (k : Nat) (tl : List ReadResult), k ≤ p.length ∧
    o.2.1 = ⟨id, std, p.drop k, ee⟩ ∧
    o.2.2 = t ++ readEvents id std (p.take k ++ tl) ∧
    (E = [] → k = 0 ∧ tl = []) ∧
    (o.1 = (true, none) ∨ o.1 = (false, none)
      ∨ ∃ c, o.1 = (false, some (GoError.wrapf "error while reading: " c))) ∧
    (o.1 = (true, none) →
      tl = [] ∧ (∀ x ∈ p.take k, x.err = none) ∧ strip (bytesOf (p.take k)) = E
        ∧ (E ≠ [] → ∃ P0 b, bytesOf (p.take k) = P0 ++ [b] ∧ b ≠ 13)) ∧
    (o.1 = (false, none) →
      tl = [] ∧ (∀ x ∈ p.take k, x.err = none)
        ∧ ∃ P0 b e rest, bytesOf (p.take k) = P0 ++ [b] ∧ b ≠ 13
            ∧ E = strip P0 ++ e :: rest ∧ b ≠ e) ∧
    (∀ err, o.1 = (false, some err) →
      ∃ c, err = GoError.wrapf "error while reading: " c ∧ ∃ x ∈ p.take k ++ tl, x.err = some c) ∧
    (∀ y ∈ p.take k ++ tl, ∀ e, y.err = some e →
      o.1 = (false, some (GoError.wrapf "error while reading: " e)))

/-! ## The paths through `SudoRun` -/

/-- The world in which a run ends that opened its session as number `w.calls` and
added the events `evs`: `kept` tells whether the session (and the input pipe, when
`piped` says that it was acquired) stays open. -/
def World.afterRun (w : World) (kept piped : Bool) (evs : Trace) : World :=
  { w with
    calls := w.calls + 1
    openSessions :=
      if kept then w.openSessions ++ [w.calls]
      else (w.openSessions ++ [w.calls]).filter (fun i => i ≠ w.calls)
    openStdin :=
      if piped then
        if kept then w.openStdin ++ [w.calls]
        else (w.openStdin ++ [w.calls]).filter (fun i => i ≠ w.calls)
      else w.openStdin
    trace := w.trace ++ evs }

/-- The error stream of session `id` as `StderrPipe` hands it out. -/
def errReader (id : Nat) (s : SessionScript) : Reader := ⟨id, Std.err, s.stderr, s.stderrEnd⟩

/-- The output stream of session `id` as `StdoutPipe` hands it out. -/
def outReader (id : Nat) (s : SessionScript) : Reader := ⟨id, Std.out, s.stdout, s.stdoutEnd⟩

/-- The reads `reads` broke off a match of `E`: they carry the bytes `P0 ++ [b]`,
the stripped `P0` is the start of `E`, and `b` is no carriage return and differs
from the byte `e` that `E` has next. -/
def Diverges (reads : List ReadResult) (E : List Byte) : Prop :=
  ∃ P0 b e rest, bytesOf reads = P0 ++ [b] ∧ b ≠ 13 ∧ E = strip P0 ++ e :: rest ∧ b ≠ e

/-- The reads `reads` met the read error `e`, and no other. -/
def FailsWith (reads : List ReadResult) (e : GoError) : Prop :=
  (∃ y ∈ reads, y.err = some e) ∧ ∀ y ∈ reads, ∀ e', y.err = some e' → e' = e

/-- None of the reads `reads` returned an error. -/
def ErrorFree (reads : List ReadResult) : Prop := ∀ x ∈ reads, x.err = none

/-- The ways through the block `if sudoNeedsPass { ... }` on session `id`: the
events it adds and the error it returns with (`none` when it runs to its end). -/
inductive PromptPath (needs : Bool) (cb : SudoPasswordCallback) (uuid : GoString) (id : Nat)
    (s : SessionScript) : Trace → Option GoError → Prop where
  | skipped (h : needs = false) : PromptPath needs cb uuid id s [] none
  | scanFailed (h : needs = true) (reads : List ReadResult) (e : GoError)
      (hf : FailsWith reads e) :
      PromptPath needs cb uuid id s (readEvents id Std.err reads)
        (some (GoError.wrapf "error while expecting sudo prompt: "
          (GoError.wrapf "error while reading: " e)))
  | noPrompt (h : needs = true) (reads : List ReadResult) (hfree : ErrorFree reads)
      (hd : Diverges reads uuid) :
      PromptPath needs cb uuid id s (readEvents id Std.err reads) (some GoError.errNoSudoPrompt)
  | callbackFailed (h : needs = true) (reads : List ReadResult) (hfree : ErrorFree reads)
      (hm : strip (bytesOf reads) = uuid) (e : GoError) (hc : cb = .error e) :
      PromptPath needs cb uuid id s (readEvents id Std.err reads ++ [Event.callback (some e)])
        (some (GoError.passwordCallbackFailure e))
  | writeFailed (h : needs = true) (reads : List ReadResult) (hfree : ErrorFree reads)
      (hm : strip (bytesOf reads) = uuid) (pwd : GoString) (hc : cb = .ok pwd) (m : Nat)
      (e : GoError) (hw : s.write (pwd ++ ascii "\n") = (m, some e)) :
      PromptPath needs cb uuid id s
        (readEvents id Std.err reads
          ++ [Event.callback none, Event.write id (pwd ++ ascii "\n") m (some e)])
        (some e)
  | writeShort (h : needs = true) (reads : List ReadResult) (hfree : ErrorFree reads)
      (hm : strip (bytesOf reads) = uuid) (pwd : GoString) (hc : cb = .ok pwd) (m : Nat)
      (hw : s.write (pwd ++ ascii "\n") = (m, none)) (hlen : m ≠ (pwd ++ ascii "\n").length) :
      PromptPath needs cb uuid id s
        (readEvents id Std.err reads
          ++ [Event.callback none, Event.write id (pwd ++ ascii "\n") m none])
        (some GoError.errShortWrite)
  | sent (h : needs = true) (reads : List ReadResult) (hfree : ErrorFree reads)
      (hm : strip (bytesOf reads) = uuid) (pwd : GoString) (hc : cb = .ok pwd) (m : Nat)
      (hw : s.write (pwd ++ ascii "\n") = (m, none)) (hlen : m = (pwd ++ ascii "\n").length) :
      PromptPath needs cb uuid id s
        (readEvents id Std.err reads
          ++ [Event.callback none, Event.write id (pwd ++ ascii "\n") m none])
        none

/-- The events of a run up to and including a successful `Start`. -/
def startedEvents (needs : Bool) (uuid : GoString) (q : GoString → GoString)
    (cmd : List GoString) (id : Nat) : Trace :=
  [Event.newSession id none, Event.stdinPipe id none, Event.stdoutPipe id none,
    Event.stderrPipe id none, Event.start id (SudoRun.startCommand needs uuid q cmd) none]

/-- The two `defer`red calls of a failed run. -/
def closeEvents (id : Nat) : Trace := [Event.closeStdin id, Event.closeSession id]

/-- The ways through `SudoRun` once the probe has answered `needs` and left the
world `w`: what is returned and the world at the return. -/
inductive RunPath (needs : Bool) (w : World) (cb : SudoPasswordCallback) (uuid : GoString)
    (q : GoString → GoString) (cmd : List GoString) : RunResult × World → Prop where
  | noSession (e : GoError) (h : w.script w.calls = .error e) :
      RunPath needs w cb uuid q cmd
        (RunResult.failed (GoError.wrapf "could not start an ssh session " e),
          { w with calls := w.calls + 1,
                   trace := w.trace ++ [Event.newSession w.calls (some e)] })
  | stdinPipeFailed (s : SessionScript) (h : w.script w.calls = .ok s) (e : GoError)
      (he : s.stdinPipeErr = some e) :
      RunPath needs w cb uuid q cmd
        (RunResult.failed e,
          w.afterRun false false
            [Event.newSession w.calls none, Event.stdinPipe w.calls (some e),
              Event.closeSession w.calls])
  | stdoutPipeFailed (s : SessionScript) (h : w.script w.calls = .ok s)
      (h0 : s.stdinPipeErr = none) (e : GoError) (he : s.stdoutPipeErr = some e) :
      RunPath needs w cb uuid q cmd
        (RunResult.failed e,
          w.afterRun false true
            ([Event.newSession w.calls none, Event.stdinPipe w.calls none,
              Event.stdoutPipe w.calls (some e)] ++ closeEvents w.calls))
  | stderrPipeFailed (s : SessionScript) (h : w.script w.calls = .ok s)
      (h0 : s.stdinPipeErr = none) (h1 : s.stdoutPipeErr = none) (e : GoError)
      (he : s.stderrPipeErr = some e) :
      RunPath needs w cb uuid q cmd
        (RunResult.failed e,
          w.afterRun false true
            ([Event.newSession w.calls none, Event.stdinPipe w.calls none,
              Event.stdoutPipe w.calls none, Event.stderrPipe w.calls (some e)]
              ++ closeEvents w.calls))
  | startFailed (s : SessionScript) (h : w.script w.calls = .ok s)
      (h0 : s.stdinPipeErr = none) (h1 : s.stdoutPipeErr = none) (h2 : s.stderrPipeErr = none)
      (e : GoError) (he : s.startErr = some e) :
      RunPath needs w cb uuid q cmd
        (RunResult.failed (GoError.wrapf "failed to start session: " e),
          w.afterRun false true
            ([Event.newSession w.calls none, Event.stdinPipe w.calls none,
              Event.stdoutPipe w.calls none, Event.stderrPipe w.calls none,
              Event.start w.calls (SudoRun.startCommand needs uuid q cmd) (some e)]
              ++ closeEvents w.calls))
  | promptFailed (s : SessionScript) (h : w.script w.calls = .ok s)
      (h0 : s.stdinPipeErr = none) (h1 : s.stdoutPipeErr = none) (h2 : s.stderrPipeErr = none)
      (h3 : s.startErr = none) (evs : Trace) (e : GoError)
      (hp : PromptPath needs cb uuid w.calls s evs (some e)) :
      RunPath needs w cb uuid q cmd
        (RunResult.failed e,
          w.afterRun false true
            (startedEvents needs uuid q cmd w.calls ++ evs ++ closeEvents w.calls))
  | readyFailed (s : SessionScript) (h : w.script w.calls = .ok s)
      (h0 : s.stdinPipeErr = none) (h1 : s.stdoutPipeErr = none) (h2 : s.stderrPipeErr = none)
      (h3 : s.startErr = none) (evs : Trace)
      (hp : PromptPath needs cb uuid w.calls s evs none) (reads : List ReadResult) (e : GoError)
      (hf : FailsWith reads e) :
      RunPath needs w cb uuid q cmd
        (RunResult.failed (GoError.wrapf "error while expecting READY flag: "
            (GoError.wrapf "error while reading: " e)),
          w.afterRun false true
            (startedEvents needs uuid q cmd w.calls ++ evs
              ++ readEvents w.calls Std.out reads ++ closeEvents w.calls))
  | noReady (s : SessionScript) (h : w.script w.calls = .ok s)
      (h0 : s.stdinPipeErr = none) (h1 : s.stdoutPipeErr = none) (h2 : s.stderrPipeErr = none)
      (h3 : s.startErr = none) (evs : Trace)
      (hp : PromptPath needs cb uuid w.calls s evs none) (reads : List ReadResult)
      (hfree : ErrorFree reads) (hd : Diverges reads (ascii "READY\n")) :
      RunPath needs w cb uuid q cmd
        (RunResult.failed GoError.errNoReadyFlag,
          w.afterRun false true
            (startedEvents needs uuid q cmd w.calls ++ evs
              ++ readEvents w.calls Std.out reads ++ closeEvents w.calls))
  | ready (s : SessionScript) (h : w.script w.calls = .ok s)
      (h0 : s.stdinPipeErr = none) (h1 : s.stdoutPipeErr = none) (h2 : s.stderrPipeErr = none)
      (h3 : s.startErr = none) (evs : Trace)
      (hp : PromptPath needs cb uuid w.calls s evs none) (reads : List ReadResult)
      (hfree : ErrorFree reads) (hm : strip (bytesOf reads) = ascii "READY\n")
      (stdout stderr : Reader) :
      RunPath needs w cb uuid q cmd
        (⟨some ⟨w.calls, s.write⟩, some stdout, some stderr, some ⟨w.calls, s⟩, none⟩,
          w.afterRun true true
            (startedEvents needs uuid q cmd w.calls ++ evs ++ readEvents w.calls Std.out reads))

/-- The world a probe leaves whose `NewSession` succeeded on a session that behaves as
`p`: the session is still open if `Run` could not start the command, and closed
(by both sides, on the return of `Wait`) otherwise. -/
def World.probed (w : World) (p : SessionScript) : World :=
  { w with
    calls := w.calls + 1
    openSessions :=
      match p.startErr with
      | some _ => w.openSessions ++ [w.calls]
      | none => (w.openSessions ++ [w.calls]).filter (fun i => i ≠ w.calls)
    trace := w.trace
      ++ [Event.newSession w.calls none, Event.run w.calls (ascii "sudo -n -v") p.runResult] }

/-- What the probe answers when `Run` returned `runErr`. -/
def probeAnswer (runErr : Option GoError) : Except GoError Bool :=
  match runErr with
  | none => .ok false
  | some e =>
      if e.isExitError then .ok true
      else .error (GoError.wrapf
        "Could not run sudo -n -v to check for sudo password requirement: " e)

/-! ## Worlds for examples -/

/-- A session on which every call succeeds: `sudo -n -v` exits with `waitErr`, the
remote side prints `err` on the error stream and `out` on the output stream, one
byte per read, both streams then end, and writes are taken whole. -/
def scriptedSession (waitErr : Option GoError) (err out : List Byte) : SessionScript :=
  { waitErr := waitErr
    stdinPipeErr := none
    stdoutPipeErr := none
    stderrPipeErr := none
    startErr := none
    stdout := out.map (fun b => ⟨some b, none⟩)
    stdoutEnd := GoError.eof
    stderr := err.map (fun b => ⟨some b, none⟩)
    stderrEnd := GoError.eof
    write := fun data => (data.length, none) }

/-- A fresh client on which the first `NewSession` returns `first` and every later
one `later`. -/
def freshWorld (first later : Except GoError SessionScript) : World :=
  { script := fun k => if k = 0 then first else later
    calls := 0
    openSessions := []
    openStdin := []
    trace := [] }

/-- A toy quoting adapter for examples: it puts its argument between single quotes
(enough for arguments that hold no quote). -/
def exampleQuote (s : GoString) : GoString := ascii "'" ++ s ++ ascii "'"

/-- A fresh client on a host where `sudo` asks for no password and the command
starts: the output stream delivers `out`. -/
def passwordlessWorld (out : List Byte) : World :=
  freshWorld (.ok (scriptedSession none [] [])) (.ok (scriptedSession none [] out))

/-- A fresh client on a host where `sudo` asks for a password: `sudo -n -v` exits
with status 1, the error stream of the run delivers `err` and its output stream
`out`. -/
def passwordWorld (err out : List Byte) : World :=
  freshWorld (.ok (scriptedSession (some (GoError.exitError 1)) [] []))
    (.ok (scriptedSession none err out))

/-- The two events of a probe whose session opened. -/
def probeEvents (w : World) (runErr : Option GoError) : Trace :=
  [Event.newSession w.calls none, Event.run w.calls (ascii "sudo -n -v") runErr]

/-- Whether an event is a call of the password callback. -/
def Event.isCallback : Event → Bool
  | Event.callback _ => true
  | _ => false

/-- The number of calls of the password callback that a trace records. -/
def callbacks (t : Trace) : Nat := t.countP Event.isCallback

/-- The nonce token was matched on the error stream of session `id`: the command was
started, the reads of the error stream were free of errors, and the bytes they
consumed, carriage returns removed, are the token. -/
def PromptMatched (t : Trace) (id : Nat) (uuid : GoString) : Prop :=
  (∃ c, Event.start id c none ∈ t) ∧ ErrorFree (readsOf t id Std.err)
    ∧ strip (consumed t id Std.err) = uuid

/-! # Theorems -/

/-! ## The expect scanner, step by step -/

theorem expectOnly_nil (r : Reader) (t : Trace) : expectOnly r [] t = ((true, none), r, t) := by
  rw [expectOnly]

theorem expectOnly_end (id : Nat) (std : Std) (ee : GoError) (e : Byte) (rest : List Byte)
    (t : Trace) :
    expectOnly ⟨id, std, [], ee⟩ (e :: rest) t
      = ((false, some (GoError.wrapf "error while reading: " ee)), ⟨id, std, [], ee⟩,
          t ++ [Event.read id std ⟨none, some ee⟩]) := by
  rw [expectOnly]
  simp [Reader.Read]

theorem expectOnly_cons (id : Nat) (std : Std) (ee : GoError) (x : ReadResult)
    (xs : List ReadResult) (e : Byte) (rest : List Byte) (t : Trace) :
    expectOnly ⟨id, std, x :: xs, ee⟩ (e :: rest) t
      = match x.err with
        | some err =>
            ((false, some (GoError.wrapf "error while reading: " err)), ⟨id, std, xs, ee⟩,
              t ++ [Event.read id std x])
        | none =>
          match x.byte with
          | some b =>
            if b ≠ 13 then
              if e ≠ b then ((false, none), ⟨id, std, xs, ee⟩, t ++ [Event.read id std x])
              else expectOnly ⟨id, std, xs, ee⟩ rest (t ++ [Event.read id std x])
            else expectOnly ⟨id, std, xs, ee⟩ (e :: rest) (t ++ [Event.read id std x])
          | none => expectOnly ⟨id, std, xs, ee⟩ (e :: rest) (t ++ [Event.read id std x]) := by
  rw [expectOnly]
  simp only [Reader.Read]
  cases hx : x.err <;> simp [hx]

theorem strip_cons_cr (s : List Byte) : strip (13 :: s) = strip s := by
  simp [strip]

theorem strip_cons_ne (b : Byte) (s : List Byte) (h : b ≠ 13) : strip (b :: s) = b :: strip s := by
  simp [strip, h]

theorem InsertCR.strip_eq {s s' : List Byte} (h : InsertCR s s') : strip s' = strip s := by
  induction h with
  | nil => rfl
  | keep b _ ih =>
      by_cases hb : b = 13
      · subst hb; rw [strip_cons_cr, strip_cons_cr, ih]
      · rw [strip_cons_ne b _ hb, strip_cons_ne b _ hb, ih]
  | cr _ ih => rw [strip_cons_cr, ih]

/-- On a stream of single bytes the outcome of the scan is that of the scan of the
stripped stream, whatever the trace and the name of the stream. -/
theorem expectOnly_outcome_strip (ee : GoError) (S : List Byte) :
    ∀ (E : List Byte) (id id' : Nat) (std std' : Std) (t t' : Trace),
      (expectOnly (Reader.ofBytes id std S ee) E t).1
        = (expectOnly (Reader.ofBytes id' std' (strip S) ee) E t').1 := by
  induction S with
  | nil =>
      intro E id id' std std' t t'
      cases E with
      | nil => simp [expectOnly_nil]
      | cons e rest => simp [Reader.ofBytes, strip, expectOnly_end]
  | cons b S ih =>
      intro E id id' std std' t t'
      cases E with
      | nil => simp [expectOnly_nil]
      | cons e rest =>
          by_cases hb : b = 13
          · subst hb
            rw [strip_cons_cr]
            have := ih (e :: rest) id id' std std' (t ++ [Event.read id std ⟨some 13, none⟩]) t'
            simpa [Reader.ofBytes, expectOnly_cons] using this
          · rw [strip_cons_ne b S hb]
            by_cases he : e = b
            · subst he
              have := ih rest id id' std std' (t ++ [Event.read id std ⟨some e, none⟩])
                (t' ++ [Event.read id' std' ⟨some e, none⟩])
              simpa [Reader.ofBytes, expectOnly_cons, hb] using this
            · simp [Reader.ofBytes, expectOnly_cons, hb, he]

theorem expectOnly_prefix_matched (ee : GoError) (S : List Byte) :
    ∀ (E : List Byte) (id : Nat) (std : Std) (t : Trace), E <+: strip S →
      (expectOnly (Reader.ofBytes id std S ee) E t).1 = (true, none) := by
  induction S with
  | nil =>
      intro E id std t h
      have : E = [] := by simpa [strip] using h
      subst this
      simp [expectOnly_nil]
  | cons b S ih =>
      intro E id std t h
      cases E with
      | nil => simp [expectOnly_nil]
      | cons e rest =>
          by_cases hb : b = 13
          · subst hb
            rw [strip_cons_cr] at h
            have := ih (e :: rest) id std (t ++ [Event.read id std ⟨some 13, none⟩]) h
            simpa [Reader.ofBytes, expectOnly_cons] using this
          · rw [strip_cons_ne b S hb] at h
            obtain ⟨heb, hrest⟩ := List.cons_prefix_cons.mp h
            subst heb
            have := ih rest id std (t ++ [Event.read id std ⟨some e, none⟩]) hrest
            simpa [Reader.ofBytes, expectOnly_cons, hb] using this

/-- C1: on a stream that delivers one byte per read, a scan for `E` returns
`(true, nil)` whenever `E` is a prefix of the stream with its carriage returns
removed, and inserting carriage returns into the stream, any number at any
positions, leaves the outcome of the scan (the Boolean and the error) unchanged. -/
theorem expectOnly_matches_prefix_and_ignores_cr (id : Nat) (std : Std) (ee : GoError)
    (S E : List Byte) (t : Trace) :
    (E <+: strip S → (expectOnly (Reader.ofBytes id std S ee) E t).1 = (true, none))
      ∧ (∀ S' : List Byte, InsertCR S S' →
          (expectOnly (Reader.ofBytes id std S' ee) E t).1
            = (expectOnly (Reader.ofBytes id std S ee) E t).1) := by
  refine ⟨expectOnly_prefix_matched ee S E id std t, ?_⟩
  intro S' h
  rw [expectOnly_outcome_strip ee S' E id id std std t t, h.strip_eq,
    ← expectOnly_outcome_strip ee S E id id std std t t]

theorem expectOnly_matches_prefix_and_ignores_cr_witness :
    ([82, 69] <+: strip [82, 13, 69, 65]
        ∧ (expectOnly (Reader.ofBytes 0 Std.out [82, 13, 69, 65] GoError.eof) [82, 69] []).1
            = (true, none))
      ∧ (InsertCR [82, 88] [13, 82, 13, 13, 88]
        ∧ (expectOnly (Reader.ofBytes 0 Std.out [13, 82, 13, 13, 88] GoError.eof) [82, 69] []).1
            = (expectOnly (Reader.ofBytes 0 Std.out [82, 88] GoError.eof) [82, 69] []).1) :=
  ⟨⟨by decide,
      (expectOnly_matches_prefix_and_ignores_cr 0 Std.out GoError.eof [82, 13, 69, 65] [82, 69]
        []).1 (by decide)⟩,
    ⟨InsertCR.cr (InsertCR.keep 82 (InsertCR.cr (InsertCR.cr (InsertCR.keep 88 InsertCR.nil)))),
      (expectOnly_matches_prefix_and_ignores_cr 0 Std.out GoError.eof [82, 88] [82, 69] []).2 _
        (InsertCR.cr (InsertCR.keep 82 (InsertCR.cr (InsertCR.cr
          (InsertCR.keep 88 InsertCR.nil)))))⟩⟩

theorem expectOnly_err (id : Nat) (std : Std) (ee : GoError) (bt : Option Byte) (err : GoError)
    (xs : List ReadResult) (e : Byte) (rest : List Byte) (t : Trace) :
    expectOnly ⟨id, std, ⟨bt, some err⟩ :: xs, ee⟩ (e :: rest) t
      = ((false, some (GoError.wrapf "error while reading: " err)), ⟨id, std, xs, ee⟩,
          t ++ [Event.read id std ⟨bt, some err⟩]) := by
  simp [expectOnly_cons]

theorem expectOnly_mismatch (id : Nat) (std : Std) (ee : GoError) (b : Byte)
    (xs : List ReadResult) (e : Byte) (rest : List Byte) (t : Trace) (hb : b ≠ 13) (he : e ≠ b) :
    expectOnly ⟨id, std, ⟨some b, none⟩ :: xs, ee⟩ (e :: rest) t
      = ((false, none), ⟨id, std, xs, ee⟩, t ++ [Event.read id std ⟨some b, none⟩]) := by
  simp [expectOnly_cons, hb, he]

theorem expectOnly_hit (id : Nat) (std : Std) (ee : GoError)
    (xs : List ReadResult) (e : Byte) (rest : List Byte) (t : Trace) (he : e ≠ 13) :
    expectOnly ⟨id, std, ⟨some e, none⟩ :: xs, ee⟩ (e :: rest) t
      = expectOnly ⟨id, std, xs, ee⟩ rest (t ++ [Event.read id std ⟨some e, none⟩]) := by
  simp [expectOnly_cons, he]

theorem expectOnly_cr (id : Nat) (std : Std) (ee : GoError)
    (xs : List ReadResult) (e : Byte) (rest : List Byte) (t : Trace) :
    expectOnly ⟨id, std, ⟨some 13, none⟩ :: xs, ee⟩ (e :: rest) t
      = expectOnly ⟨id, std, xs, ee⟩ (e :: rest) (t ++ [Event.read id std ⟨some 13, none⟩]) := by
  simp [expectOnly_cons]

theorem expectOnly_zero (id : Nat) (std : Std) (ee : GoError)
    (xs : List ReadResult) (e : Byte) (rest : List Byte) (t : Trace) :
    expectOnly ⟨id, std, ⟨none, none⟩ :: xs, ee⟩ (e :: rest) t
      = expectOnly ⟨id, std, xs, ee⟩ (e :: rest) (t ++ [Event.read id std ⟨none, none⟩]) := by
  simp [expectOnly_cons]

/-- Induction along a scan: one case for each way an iteration of the loop of
`expectOnly` can go. -/
theorem scan_induction (id : Nat) (std : Std)
    (motive : List ReadResult → List Byte → Trace → Prop)
    (h_nil : ∀ p t, motive p [] t)
    (h_end : ∀ e rest t, motive [] (e :: rest) t)
    (h_err : ∀ bt err xs e rest t, motive (⟨bt, some err⟩ :: xs) (e :: rest) t)
    (h_mis : ∀ b xs e rest t, b ≠ 13 → e ≠ b → motive (⟨some b, none⟩ :: xs) (e :: rest) t)
    (h_hit : ∀ xs e rest t, e ≠ 13 →
      motive xs rest (t ++ [Event.read id std ⟨some e, none⟩]) →
      motive (⟨some e, none⟩ :: xs) (e :: rest) t)
    (h_cr : ∀ xs e rest t,
      motive xs (e :: rest) (t ++ [Event.read id std ⟨some 13, none⟩]) →
      motive (⟨some 13, none⟩ :: xs) (e :: rest) t)
    (h_zero : ∀ xs e rest t,
      motive xs (e :: rest) (t ++ [Event.read id std ⟨none, none⟩]) →
      motive (⟨none, none⟩ :: xs) (e :: rest) t) :
    ∀ p E t, motive p E t := by
  intro p
  induction p with
  | nil =>
      intro E t
      cases E with
      | nil => exact h_nil _ _
      | cons e rest => exact h_end _ _ _
  | cons x xs ih =>
      intro E t
      cases E with
      | nil => exact h_nil _ _
      | cons e rest =>
          obtain ⟨bt, er⟩ := x
          cases er with
          | some err => exact h_err _ _ _ _ _ _
          | none =>
              cases bt with
              | none => exact h_zero _ _ _ _ (ih _ _)
              | some b =>
                  by_cases hb : b = 13
                  · subst hb; exact h_cr _ _ _ _ (ih _ _)
                  · by_cases he : e = b
                    · subst he; exact h_hit _ _ _ _ hb (ih _ _)
                    · exact h_mis _ _ _ _ _ hb he

theorem ScanPost.step {id : Nat} {std : Std} {ee : GoError} {xs : List ReadResult}
    {E' E : List Byte} {t : Trace} {o : (Bool × Option GoError) × Reader × Trace}
    (x : ReadResult) (hx : x.err = none) (hE : E ≠ [])
    (hstrip : ∀ P, strip (bytesOf (x :: P)) = E ↔ strip (bytesOf P) = E')
    (hlast : ∀ P, (E' = [] → P = []) → (E' ≠ [] → ∃ P0 b, bytesOf P = P0 ++ [b] ∧ b ≠ 13) →
      ∃ P0 b, bytesOf (x :: P) = P0 ++ [b] ∧ b ≠ 13)
    (hmis : ∀ P, (∃ P0 b e rest, bytesOf P = P0 ++ [b] ∧ b ≠ 13
        ∧ E' = strip P0 ++ e :: rest ∧ b ≠ e) →
      ∃ P0 b e rest, bytesOf (x :: P) = P0 ++ [b] ∧ b ≠ 13 ∧ E = strip P0 ++ e :: rest ∧ b ≠ e)
    (h : ScanPost id std ee xs E' (t ++ [Event.read id std x]) o) :
    ScanPost id std ee (x :: xs) E t o := by
  obtain ⟨k, tl, hk, hr, ht, h0, htri, hT, hF, hErr, hG⟩ := h
  refine ⟨k + 1, tl, by simpa using hk, by simpa using hr, ?_, fun h => absurd h hE, htri,
    ?_, ?_, ?_, ?_⟩
  · rw [ht]; simp [readEvents]
  · intro ho
    obtain ⟨h1, h2, h3, h4⟩ := hT ho
    refine ⟨h1, ?_, ?_, fun _ => ?_⟩
    · intro y hy
      rw [List.take_succ_cons, List.mem_cons] at hy
      rcases hy with rfl | hy
      · exact hx
      · exact h2 y hy
    · rw [List.take_succ_cons]; exact (hstrip _).2 h3
    · rw [List.take_succ_cons]
      refine hlast _ (fun hE' => ?_) h4
      have := (h0 hE').1
      subst this
      simp
  · intro ho
    obtain ⟨h1, h2, h3⟩ := hF ho
    refine ⟨h1, ?_, ?_⟩
    · intro y hy
      rw [List.take_succ_cons, List.mem_cons] at hy
      rcases hy with rfl | hy
      · exact hx
      · exact h2 y hy
    · rw [List.take_succ_cons]; exact hmis _ h3
  · intro err ho
    obtain ⟨c, hc, y, hy, hyc⟩ := hErr err ho
    refine ⟨c, hc, y, ?_, hyc⟩
    rw [List.take_succ_cons, List.cons_append, List.mem_cons]
    exact Or.inr hy
  · intro y hy e hye
    rw [List.take_succ_cons, List.cons_append, List.mem_cons] at hy
    rcases hy with rfl | hy
    · rw [hx] at hye; cases hye
    · exact hG y hy e hye

/-- Every scan satisfies `ScanPost`. -/
theorem expectOnly_post (id : Nat) (std : Std) (ee : GoError) :
    ∀ (p : List ReadResult) (E : List Byte) (t : Trace),
      ScanPost id std ee p E t (expectOnly ⟨id, std, p, ee⟩ E t) := by
  refine scan_induction id std
    (fun p E t => ScanPost id std ee p E t (expectOnly ⟨id, std, p, ee⟩ E t)) ?_ ?_ ?_ ?_ ?_ ?_ ?_
  · intro p t
    rw [expectOnly_nil]
    exact ⟨0, [], by simp, by simp, by simp [readEvents], fun _ => ⟨rfl, rfl⟩, Or.inl rfl,
      fun _ => ⟨rfl, by simp, by simp [strip, bytesOf], fun h => absurd rfl h⟩,
      fun h => by simp at h, fun err h => by simp at h, by simp⟩
  · intro e rest t
    rw [expectOnly_end]
    exact ⟨0, [⟨none, some ee⟩], by simp, by simp, by simp [readEvents], fun h => by simp at h,
      Or.inr (Or.inr ⟨ee, rfl⟩), fun h => by simp at h, fun h => by simp at h,
      fun err h => ⟨ee, by simpa using h.symm, ⟨none, some ee⟩, by simp, rfl⟩,
      by simp⟩
  · intro bt err xs e rest t
    rw [expectOnly_err]
    exact ⟨1, [], by simp, by simp, by simp [readEvents], fun h => by simp at h,
      Or.inr (Or.inr ⟨err, rfl⟩), fun h => by simp at h, fun h => by simp at h,
      fun err' h => ⟨err, by simpa using h.symm, ⟨bt, some err⟩, by simp, rfl⟩,
      by simp⟩
  · intro b xs e rest t hb he
    rw [expectOnly_mismatch id std ee b xs e rest t hb he]
    exact ⟨1, [], by simp, by simp, by simp [readEvents], fun h => by simp at h,
      Or.inr (Or.inl rfl), fun h => by simp at h,
      fun _ => ⟨rfl, by simp, [], b, e, rest, by simp [bytesOf], hb, by simp [strip], Ne.symm he⟩,
      fun err h => by simp at h, by simp⟩
  · intro xs e rest t he ih
    rw [expectOnly_hit id std ee xs e rest t he]
    refine ScanPost.step ⟨some e, none⟩ rfl (by simp) ?_ ?_ ?_ ih
    · intro P
      simp [bytesOf, strip, he]
    · intro P h0 h1
      by_cases hr : rest = []
      · have := h0 hr
        subst this
        exact ⟨[], e, by simp [bytesOf], he⟩
      · obtain ⟨P0, b, hP, hb⟩ := h1 hr
        refine ⟨e :: P0, b, ?_, hb⟩
        have : bytesOf (⟨some e, none⟩ :: P) = e :: bytesOf P := by simp [bytesOf]
        rw [this, hP]; rfl
    · rintro P ⟨P0, b, e', rest', hP, hb, hE, hne⟩
      refine ⟨e :: P0, b, e', rest', ?_, hb, ?_, hne⟩
      · have : bytesOf (⟨some e, none⟩ :: P) = e :: bytesOf P := by simp [bytesOf]
        rw [this, hP]; rfl
      · rw [strip_cons_ne e P0 he, hE]; rfl
  · intro xs e rest t ih
    rw [expectOnly_cr]
    refine ScanPost.step ⟨some 13, none⟩ rfl (by simp) ?_ ?_ ?_ ih
    · intro P
      simp [bytesOf, strip]
    · intro P h0 h1
      obtain ⟨P0, b, hP, hb⟩ := h1 (by simp)
      refine ⟨13 :: P0, b, ?_, hb⟩
      have : bytesOf (⟨some 13, none⟩ :: P) = 13 :: bytesOf P := by simp [bytesOf]
      rw [this, hP]; rfl
    · rintro P ⟨P0, b, e', rest', hP, hb, hE, hne⟩
      refine ⟨13 :: P0, b, e', rest', ?_, hb, ?_, hne⟩
      · have : bytesOf (⟨some 13, none⟩ :: P) = 13 :: bytesOf P := by simp [bytesOf]
        rw [this, hP]; rfl
      · rw [strip_cons_cr, hE]
  · intro xs e rest t ih
    rw [expectOnly_zero]
    refine ScanPost.step ⟨none, none⟩ rfl (by simp) ?_ ?_ ?_ ih
    · intro P
      simp [bytesOf, strip]
    · intro P h0 h1
      obtain ⟨P0, b, hP, hb⟩ := h1 (by simp)
      exact ⟨P0, b, by simpa [bytesOf] using hP, hb⟩
    · rintro P ⟨P0, b, e', rest', hP, hb, hE, hne⟩
      exact ⟨P0, b, e', rest', by simpa [bytesOf] using hP, hb, hE, hne⟩

theorem bytesOf_append (xs ys : List ReadResult) :
    bytesOf (xs ++ ys) = bytesOf xs ++ bytesOf ys := by
  simp [bytesOf]

theorem strip_append (xs ys : List Byte) : strip (xs ++ ys) = strip xs ++ strip ys := by
  simp [strip]

/-- A prefix that ends in a byte other than carriage return is the shortest prefix
with its stripped form. -/
theorem shortest_of_last_ne_cr {S P P0 P' : List Byte} {b : Byte} (hP : P = P0 ++ [b])
    (hb : b ≠ 13) (hPS : P <+: S) (hP'S : P' <+: S) (hs : strip P' = strip P) :
    P.length ≤ P'.length := by
  by_contra hlt
  have hlt : P'.length < P.length := Nat.lt_of_not_le hlt
  have hpre : P' <+: P := List.prefix_of_prefix_length_le hP'S hPS (Nat.le_of_lt hlt)
  rw [hP] at hpre
  have hpre0 : P' <+: P0 := by
    rcases List.prefix_concat_iff.mp hpre with h | h
    · rw [h, hP] at hlt; exact absurd hlt (Nat.lt_irrefl _)
    · exact h
  have h1 : (strip P').length ≤ (strip P0).length := (hpre0.filter _).length_le
  rw [hs, hP, strip_append] at h1
  have : strip [b] = [b] := by simp [strip, hb]
  rw [this] at h1
  simp at h1

/-- C2: the scan reads no more than it needs.  For the empty sequence it returns
`(true, nil)` with the reader and the trace untouched (no read at all, whatever the
reads would return).  For a non-empty `E`: on "matched" it has taken the first `k`
results of the stream, the bytes `P` they carry are the shortest prefix of the
stream's bytes whose stripped form is `E`, and the rest of the stream is unread; on
"not matched" the bytes taken are `P0 ++ [b]` where the stripped `P0` is matched by
the start of `E`, `b` is not a carriage return and differs from the next expected
byte `e`, and again the rest of the stream is unread. -/
theorem expectOnly_consumes_exactly (r : Reader) (E : List Byte) (t : Trace) :
    expectOnly r [] t = ((true, none), r, t)
    ∧ (E ≠ [] → (expectOnly r E t).1 = (true, none) →
        ∃ k, (expectOnly r E t).2.1 = { r with pending := r.pending.drop k }
          ∧ (expectOnly r E t).2.2 = t ++ readEvents r.id r.std (r.pending.take k)
          ∧ bytesOf r.pending
              = bytesOf (r.pending.take k) ++ bytesOf (expectOnly r E t).2.1.pending
          ∧ strip (bytesOf (r.pending.take k)) = E
          ∧ ∀ P', P' <+: bytesOf r.pending → strip P' = E →
              (bytesOf (r.pending.take k)).length ≤ P'.length)
    ∧ (E ≠ [] → (expectOnly r E t).1 = (false, none) →
        ∃ k P0 b e rest, (expectOnly r E t).2.1 = { r with pending := r.pending.drop k }
          ∧ (expectOnly r E t).2.2 = t ++ readEvents r.id r.std (r.pending.take k)
          ∧ bytesOf r.pending
              = bytesOf (r.pending.take k) ++ bytesOf (expectOnly r E t).2.1.pending
          ∧ bytesOf (r.pending.take k) = P0 ++ [b]
          ∧ b ≠ 13 ∧ E = strip P0 ++ e :: rest ∧ b ≠ e) := by
  obtain ⟨id, std, p, ee⟩ := r
  obtain ⟨k, tl, _, hr, ht, _, _, hT, hF, _, _⟩ := expectOnly_post id std ee p E t
  refine ⟨expectOnly_nil _ _, ?_, ?_⟩
  · intro hE ho
    obtain ⟨htl, _, hs, hlast⟩ := hT ho
    obtain ⟨P0, b, hP, hb⟩ := hlast hE
    subst htl
    refine ⟨k, hr, by simpa using ht, ?_, hs, ?_⟩
    · rw [hr, ← bytesOf_append, List.take_append_drop]
    · intro P' hP' hs'
      refine shortest_of_last_ne_cr hP hb ?_ hP' (hs'.trans hs.symm)
      exact ⟨bytesOf (p.drop k), by rw [← bytesOf_append, List.take_append_drop]⟩
  · intro _ ho
    obtain ⟨htl, _, P0, b, e, rest, hP, hb, hE', hne⟩ := hF ho
    subst htl
    refine ⟨k, P0, b, e, rest, hr, by simpa using ht, ?_, hP, hb, hE', hne⟩
    rw [hr, ← bytesOf_append, List.take_append_drop]

theorem expectOnly_consumes_exactly_witness :
    (([82, 69] ≠ ([] : List Byte)
        ∧ (expectOnly (Reader.ofBytes 0 Std.out [82, 13, 69, 13, 65] GoError.eof) [82, 69] []).1
            = (true, none))
      ∧ ∃ k, (expectOnly (Reader.ofBytes 0 Std.out [82, 13, 69, 13, 65] GoError.eof) [82, 69]
                []).2.1
            = { Reader.ofBytes 0 Std.out [82, 13, 69, 13, 65] GoError.eof with
                pending := (Reader.ofBytes 0 Std.out [82, 13, 69, 13, 65] GoError.eof).pending.drop
                  k }
          ∧ (expectOnly (Reader.ofBytes 0 Std.out [82, 13, 69, 13, 65] GoError.eof) [82, 69]
                []).2.2
            = [] ++ readEvents 0 Std.out
                ((Reader.ofBytes 0 Std.out [82, 13, 69, 13, 65] GoError.eof).pending.take k)
          ∧ bytesOf (Reader.ofBytes 0 Std.out [82, 13, 69, 13, 65] GoError.eof).pending
              = bytesOf ((Reader.ofBytes 0 Std.out [82, 13, 69, 13, 65] GoError.eof).pending.take k)
                ++ bytesOf (expectOnly (Reader.ofBytes 0 Std.out [82, 13, 69, 13, 65] GoError.eof)
                    [82, 69] []).2.1.pending
          ∧ strip (bytesOf
                ((Reader.ofBytes 0 Std.out [82, 13, 69, 13, 65] GoError.eof).pending.take k))
              = [82, 69]
          ∧ ∀ P', P' <+: bytesOf (Reader.ofBytes 0 Std.out [82, 13, 69, 13, 65] GoError.eof).pending
              → strip P' = [82, 69] →
              (bytesOf ((Reader.ofBytes 0 Std.out [82, 13, 69, 13, 65] GoError.eof).pending.take
                k)).length ≤ P'.length)
    ∧ (expectOnly (Reader.ofBytes 0 Std.out [82, 13, 69, 13, 65] GoError.eof) [82, 69]
          []).2.1.pending = [⟨some 13, none⟩, ⟨some 65, none⟩] :=
  ⟨⟨⟨by decide, by simp [Reader.ofBytes, expectOnly_cons, expectOnly_nil]⟩,
      (expectOnly_consumes_exactly (Reader.ofBytes 0 Std.out [82, 13, 69, 13, 65] GoError.eof)
        [82, 69] []).2.1 (by decide) (by simp [Reader.ofBytes, expectOnly_cons, expectOnly_nil])⟩,
    by simp [Reader.ofBytes, expectOnly_cons, expectOnly_nil]⟩

/-- The trace a scan starts from only ever gets longer: the outcome, the reader left
behind and the events added are those of the scan started from the empty trace. -/
theorem expectOnly_trace (id : Nat) (std : Std) (ee : GoError) :
    ∀ (p : List ReadResult) (E : List Byte) (t : Trace),
      expectOnly ⟨id, std, p, ee⟩ E t
        = ((expectOnly ⟨id, std, p, ee⟩ E []).1, (expectOnly ⟨id, std, p, ee⟩ E []).2.1,
            t ++ (expectOnly ⟨id, std, p, ee⟩ E []).2.2) := by
  intro p E t0
  have key : ∀ (p : List ReadResult) (E : List Byte) (_ : Trace), ∀ t,
      expectOnly ⟨id, std, p, ee⟩ E t
        = ((expectOnly ⟨id, std, p, ee⟩ E []).1, (expectOnly ⟨id, std, p, ee⟩ E []).2.1,
            t ++ (expectOnly ⟨id, std, p, ee⟩ E []).2.2) := by
    refine scan_induction id std
      (fun p E _ => ∀ t, expectOnly ⟨id, std, p, ee⟩ E t
        = ((expectOnly ⟨id, std, p, ee⟩ E []).1, (expectOnly ⟨id, std, p, ee⟩ E []).2.1,
            t ++ (expectOnly ⟨id, std, p, ee⟩ E []).2.2)) ?_ ?_ ?_ ?_ ?_ ?_ ?_
    · intro p _ t; simp [expectOnly_nil]
    · intro e rest _ t; simp [expectOnly_end]
    · intro bt err xs e rest _ t; simp [expectOnly_err]
    · intro b xs e rest _ hb he t; simp [expectOnly_mismatch _ _ _ _ _ _ _ _ hb he]
    · intro xs e rest _ he ih t
      rw [expectOnly_hit _ _ _ _ _ _ _ he, expectOnly_hit _ _ _ _ _ _ _ he, ih, ih ([] ++ _)]
      simp
    · intro xs e rest _ ih t
      rw [expectOnly_cr, expectOnly_cr, ih, ih ([] ++ _)]
      simp
    · intro xs e rest _ ih t
      rw [expectOnly_zero, expectOnly_zero, ih, ih ([] ++ _)]
      simp
  exact key p E [] t0

/-- The outcome of a scan is one of three. -/
theorem expectOnly_outcome (r : Reader) (E : List Byte) (t : Trace) :
    (expectOnly r E t).1 = (true, none) ∨ (expectOnly r E t).1 = (false, none)
      ∨ ∃ c, (expectOnly r E t).1 = (false, some (GoError.wrapf "error while reading: " c)) := by
  obtain ⟨id, std, p, ee⟩ := r
  obtain ⟨_, _, _, _, _, _, h, _⟩ := expectOnly_post id std ee p E t
  exact h

/-- The events a scan adds are reads of its stream, and the outcome tells what was
read. -/
theorem scan_reads (id : Nat) (std : Std) (ee : GoError) (p : List ReadResult) (E : List Byte) :
    ∃ reads : List ReadResult,
      (expectOnly ⟨id, std, p, ee⟩ E []).2.2 = readEvents id std reads
      ∧ ((expectOnly ⟨id, std, p, ee⟩ E []).1 = (true, none) →
          (∀ x ∈ reads, x.err = none) ∧ strip (bytesOf reads) = E)
      ∧ ((expectOnly ⟨id, std, p, ee⟩ E []).1 = (false, none) →
          (∀ x ∈ reads, x.err = none)
            ∧ ∃ P0 b e rest, bytesOf reads = P0 ++ [b] ∧ b ≠ 13
                ∧ E = strip P0 ++ e :: rest ∧ b ≠ e)
      ∧ (∀ y ∈ reads, ∀ e, y.err = some e →
          (expectOnly ⟨id, std, p, ee⟩ E []).1
            = (false, some (GoError.wrapf "error while reading: " e)))
      ∧ (∀ c, (expectOnly ⟨id, std, p, ee⟩ E []).1 = (false, some c) →
          ∃ e, c = GoError.wrapf "error while reading: " e ∧ ∃ y ∈ reads, y.err = some e) := by
  obtain ⟨k, tl, _, _, ht, _, _, hT, hF, hErr, hG⟩ := expectOnly_post id std ee p E []
  refine ⟨p.take k ++ tl, by simpa using ht, ?_, ?_, hG, hErr⟩
  · intro ho
    obtain ⟨htl, h1, h2, _⟩ := hT ho
    subst htl
    rw [List.append_nil]
    exact ⟨h1, h2⟩
  · intro ho
    obtain ⟨htl, h1, h2⟩ := hF ho
    subst htl
    rw [List.append_nil]
    exact ⟨h1, h2⟩


theorem mem_readEvents {id : Nat} {std : Std} {xs : List ReadResult} {ev : Event} :
    ev ∈ readEvents id std xs ↔ ∃ x ∈ xs, ev = Event.read id std x := by
  simp [readEvents, eq_comm]

/-- A scan that matched read without error, and what it read is `E` once stripped. -/
theorem scan_matched {id : Nat} {std : Std} {ee : GoError} {p : List ReadResult} {E : List Byte}
    (h : (expectOnly ⟨id, std, p, ee⟩ E []).1 = (true, none)) :
    ∃ reads, (expectOnly ⟨id, std, p, ee⟩ E []).2.2 = readEvents id std reads
      ∧ (∀ x ∈ reads, x.err = none) ∧ strip (bytesOf reads) = E := by
  obtain ⟨reads, h1, h2, _⟩ := scan_reads id std ee p E
  exact ⟨reads, h1, h2 h⟩

/-- A scan that did not match read without error, and the last byte it read is the
first one that is no carriage return and differs from the expected byte. -/
theorem scan_mismatched {id : Nat} {std : Std} {ee : GoError} {p : List ReadResult}
    {E : List Byte} (h : (expectOnly ⟨id, std, p, ee⟩ E []).1 = (false, none)) :
    ∃ reads, (expectOnly ⟨id, std, p, ee⟩ E []).2.2 = readEvents id std reads
      ∧ (∀ x ∈ reads, x.err = none)
      ∧ ∃ P0 b e rest, bytesOf reads = P0 ++ [b] ∧ b ≠ 13 ∧ E = strip P0 ++ e :: rest ∧ b ≠ e := by
  obtain ⟨reads, h1, _, h3, _⟩ := scan_reads id std ee p E
  exact ⟨reads, h1, h3 h⟩

/-- A scan that returned an error met exactly one read error, and wraps it. -/
theorem scan_failed {id : Nat} {std : Std} {ee : GoError} {p : List ReadResult}
    {E : List Byte} {b : Bool} {c : GoError}
    (h : (expectOnly ⟨id, std, p, ee⟩ E []).1 = (b, some c)) :
    ∃ reads e, (expectOnly ⟨id, std, p, ee⟩ E []).2.2 = readEvents id std reads
      ∧ c = GoError.wrapf "error while reading: " e
      ∧ (∃ y ∈ reads, y.err = some e)
      ∧ ∀ y ∈ reads, ∀ e', y.err = some e' → e' = e := by
  obtain ⟨reads, h1, _, _, h4, h5⟩ := scan_reads id std ee p E
  have hb : b = false := by
    rcases expectOnly_outcome ⟨id, std, p, ee⟩ E [] with ho | ho | ⟨_, ho⟩ <;>
      · rw [h] at ho
        simp at ho
        try exact ho.1
  subst hb
  obtain ⟨e, hc, hy⟩ := h5 c h
  refine ⟨reads, e, h1, hc, hy, ?_⟩
  intro y hy' e' he'
  have := h4 y hy' e' he'
  rw [h, hc] at this
  simpa using this.symm

/-! ## The paths through `SudoRun` -/

theorem ioCopy_password (stdin : Stdin) (pwd : GoString) (w : World) :
    ioCopy stdin (pwd ++ ascii "\n") w
      = match stdin.write (pwd ++ ascii "\n") with
        | (m, some err) =>
            (some err, w.log (Event.write stdin.id (pwd ++ ascii "\n") m (some err)))
        | (m, none) =>
            if m ≠ (pwd ++ ascii "\n").length then
              (some GoError.errShortWrite, w.log (Event.write stdin.id (pwd ++ ascii "\n") m none))
            else (none, w.log (Event.write stdin.id (pwd ++ ascii "\n") m none)) := by
  cases pwd with
  | nil => rfl
  | cons b bs => rfl

theorem SudoRun.prompt_path (needs : Bool) (cb : SudoPasswordCallback) (uuid : GoString)
    (id : Nat) (s : SessionScript) (w : World) :
    ∃ evs err stderr,
      SudoRun.prompt needs (if needs then uuid else ascii "") cb ⟨id, s.write⟩ (errReader id s) w
          = (err, stderr, { w with trace := w.trace ++ evs })
        ∧ PromptPath needs cb uuid id s evs err := by
  cases needs with
  | false => exact ⟨[], none, errReader id s, by simp [SudoRun.prompt], PromptPath.skipped rfl⟩
  | true =>
      have ht := expectOnly_trace id Std.err s.stderrEnd s.stderr uuid w.trace
      rcases expectOnly_outcome (errReader id s) uuid [] with ho | ho | ⟨c, ho⟩
      · simp only [errReader] at ho ⊢
        obtain ⟨reads, htr, hfree, hm⟩ := scan_matched ho
        cases cb with
        | error e =>
            refine ⟨_, _, (expectOnly ⟨id, Std.err, s.stderr, s.stderrEnd⟩ uuid []).2.1, ?_,
              PromptPath.callbackFailed rfl reads hfree hm e rfl⟩
            simp [SudoRun.prompt, ht, ho, callPassword, World.log, htr]
        | ok pwd =>
            rcases hw : s.write (pwd ++ ascii "\n") with ⟨m, _ | e⟩
            · have hlen : (pwd ++ ascii "\n").length = pwd.length + (ascii "\n").length :=
                List.length_append _ _
              by_cases hl : m = (pwd ++ ascii "\n").length
              · refine ⟨_, _, (expectOnly ⟨id, Std.err, s.stderr, s.stderrEnd⟩ uuid []).2.1, ?_,
              PromptPath.sent rfl reads hfree hm pwd rfl m hw hl⟩
                simp [SudoRun.prompt, ht, ho, callPassword, World.log, ioCopy_password, hw,
                  hlen ▸ hl, htr]
              · refine ⟨_, _, (expectOnly ⟨id, Std.err, s.stderr, s.stderrEnd⟩ uuid []).2.1, ?_,
              PromptPath.writeShort rfl reads hfree hm pwd rfl m hw hl⟩
                simp [SudoRun.prompt, ht, ho, callPassword, World.log, ioCopy_password, hw,
                  hlen ▸ hl, htr]
            · refine ⟨_, _, (expectOnly ⟨id, Std.err, s.stderr, s.stderrEnd⟩ uuid []).2.1, ?_,
              PromptPath.writeFailed rfl reads hfree hm pwd rfl m e hw⟩
              simp [SudoRun.prompt, ht, ho, callPassword, World.log, ioCopy_password, hw, htr]
      · simp only [errReader] at ho ⊢
        obtain ⟨reads, htr, hfree, hd⟩ := scan_mismatched ho
        refine ⟨_, _, (expectOnly ⟨id, Std.err, s.stderr, s.stderrEnd⟩ uuid []).2.1, ?_,
              PromptPath.noPrompt rfl reads hfree hd⟩
        simp [SudoRun.prompt, ht, ho, htr]
      · simp only [errReader] at ho ⊢
        obtain ⟨reads, e, htr, hc, hy, hu⟩ := scan_failed ho
        have hce : c = e := by injection hc
        subst hce
        refine ⟨_, _, (expectOnly ⟨id, Std.err, s.stderr, s.stderrEnd⟩ uuid []).2.1, ?_,
              PromptPath.scanFailed rfl reads c ⟨hy, hu⟩⟩
        simp [SudoRun.prompt, ht, ho, htr]

theorem SudoRun.body_path (needs : Bool) (cb : SudoPasswordCallback) (uuid : GoString)
    (q : GoString → GoString) (cmd : List GoString) (id : Nat) (s : SessionScript) (w : World) :
    (∃ e, s.startErr = some e
        ∧ SudoRun.body needs cb uuid q cmd ⟨id, s⟩ ⟨id, s.write⟩ (outReader id s) (errReader id s) w
          = (RunResult.failed (GoError.wrapf "failed to start session: " e), false,
              { w with trace := w.trace
                  ++ [Event.start id (SudoRun.startCommand needs uuid q cmd) (some e)] }))
    ∨ (s.startErr = none ∧ ∃ evs err, PromptPath needs cb uuid id s evs err ∧
        ((∃ e, err = some e
            ∧ SudoRun.body needs cb uuid q cmd ⟨id, s⟩ ⟨id, s.write⟩ (outReader id s)
                (errReader id s) w
              = (RunResult.failed e, false,
                  { w with trace := w.trace
                      ++ ([Event.start id (SudoRun.startCommand needs uuid q cmd) none] ++ evs) }))
        ∨ (err = none ∧ ∃ reads,
            ((∃ e, FailsWith reads e
                ∧ SudoRun.body needs cb uuid q cmd ⟨id, s⟩ ⟨id, s.write⟩ (outReader id s)
                    (errReader id s) w
                  = (RunResult.failed (GoError.wrapf "error while expecting READY flag: "
                        (GoError.wrapf "error while reading: " e)),
                      false,
                      { w with trace := w.trace
                          ++ ([Event.start id (SudoRun.startCommand needs uuid q cmd) none] ++ evs
                            ++ readEvents id Std.out reads) }))
            ∨ (ErrorFree reads ∧ Diverges reads (ascii "READY\n")
                ∧ SudoRun.body needs cb uuid q cmd ⟨id, s⟩ ⟨id, s.write⟩ (outReader id s)
                    (errReader id s) w
                  = (RunResult.failed GoError.errNoReadyFlag, false,
                      { w with trace := w.trace
                          ++ ([Event.start id (SudoRun.startCommand needs uuid q cmd) none] ++ evs
                            ++ readEvents id Std.out reads) }))
            ∨ (ErrorFree reads ∧ strip (bytesOf reads) = ascii "READY\n"
                ∧ ∃ stdout stderr,
                  SudoRun.body needs cb uuid q cmd ⟨id, s⟩ ⟨id, s.write⟩ (outReader id s)
                    (errReader id s) w
                  = (⟨some ⟨id, s.write⟩, some stdout, some stderr, some ⟨id, s⟩, none⟩, true,
                      { w with trace := w.trace
                          ++ ([Event.start id (SudoRun.startCommand needs uuid q cmd) none] ++ evs
                            ++ readEvents id Std.out reads) })))))) := by
  cases hst : s.startErr with
  | some e =>
      left
      exact ⟨e, rfl, by simp [SudoRun.body, Session.Start, hst, World.log]⟩
  | none =>
      right
      refine ⟨rfl, ?_⟩
      obtain ⟨evs, err, stderr, heq, hp⟩ := SudoRun.prompt_path needs cb uuid id s
        (w.log (Event.start id (SudoRun.startCommand needs uuid q cmd) none))
      refine ⟨evs, err, hp, ?_⟩
      cases err with
      | some e =>
          left
          refine ⟨e, rfl, ?_⟩
          simp only [SudoRun.body, Session.Start, hst]
          rw [heq]
          simp [World.log]
      | none =>
          right
          refine ⟨rfl, ?_⟩
          have ht : ∀ t, _ := fun t =>
            expectOnly_trace id Std.out s.stdoutEnd s.stdout (ascii "READY\n") t
          rcases expectOnly_outcome (outReader id s) (ascii "READY\n") [] with ho | ho | ⟨c, ho⟩
          · simp only [outReader] at ho
            obtain ⟨reads, htr, hfree, hm⟩ := scan_matched ho
            refine ⟨reads, Or.inr (Or.inr ⟨hfree, hm,
              (expectOnly ⟨id, Std.out, s.stdout, s.stdoutEnd⟩ (ascii "READY\n") []).2.1, stderr, ?_⟩)⟩
            simp only [SudoRun.body, Session.Start, hst]
            rw [heq]
            simp only [outReader]
            generalize expectOnly ⟨id, Std.out, s.stdout, s.stdoutEnd⟩ (ascii "READY\n") [] = o
              at ht ho htr ⊢
            simp [World.log, ht, ho, htr]
          · simp only [outReader] at ho
            obtain ⟨reads, htr, hfree, hd⟩ := scan_mismatched ho
            refine ⟨reads, Or.inr (Or.inl ⟨hfree, hd, ?_⟩)⟩
            simp only [SudoRun.body, Session.Start, hst]
            rw [heq]
            simp only [outReader]
            generalize expectOnly ⟨id, Std.out, s.stdout, s.stdoutEnd⟩ (ascii "READY\n") [] = o
              at ht ho htr ⊢
            simp [World.log, ht, ho, htr]
          · simp only [outReader] at ho
            obtain ⟨reads, e, htr, hc, hy, hu⟩ := scan_failed ho
            have hce : c = e := by injection hc
            subst hce
            refine ⟨reads, Or.inl ⟨c, ⟨hy, hu⟩, ?_⟩⟩
            simp only [SudoRun.body, Session.Start, hst]
            rw [heq]
            simp only [outReader]
            generalize expectOnly ⟨id, Std.out, s.stdout, s.stdoutEnd⟩ (ascii "READY\n") [] = o
              at ht ho htr ⊢
            simp [World.log, ht, ho, htr]

/-- Every run that gets past the probe goes one of the ways of `RunPath`. -/
theorem SudoRun_path (w w1 : World) (needs : Bool) (cb : SudoPasswordCallback) (uuid : GoString)
    (q : GoString → GoString) (cmd : List GoString)
    (hprobe : CheckSudoNeedsPassword w = (.ok needs, w1)) :
    RunPath needs w1 cb uuid q cmd (SudoRun w cb uuid q cmd) := by
  unfold SudoRun
  rw [hprobe]
  simp only
  cases hs : w1.script w1.calls with
  | error e =>
      simp only [World.NewSession, hs]
      exact RunPath.noSession e hs
  | ok s =>
      simp only [World.NewSession, hs, SudoRun.withSession, openSessionPipes, Session.StdinPipe]
      cases h0 : s.stdinPipeErr with
      | some e =>
          simpa [World.afterRun, World.log, Session.Close] using
            (RunPath.stdinPipeFailed s hs e h0 : RunPath needs w1 cb uuid q cmd _)
      | none =>
          simp only [Session.StdoutPipe]
          cases h1 : s.stdoutPipeErr with
          | some e =>
              simpa [World.afterRun, World.log, Session.Close, Stdin.Close, closeEvents] using
                (RunPath.stdoutPipeFailed s hs h0 e h1 : RunPath needs w1 cb uuid q cmd _)
          | none =>
              simp only [Session.StderrPipe]
              cases h2 : s.stderrPipeErr with
              | some e =>
                  simpa [World.afterRun, World.log, Session.Close, Stdin.Close, closeEvents] using
                    (RunPath.stderrPipeFailed s hs h0 h1 e h2 : RunPath needs w1 cb uuid q cmd _)
              | none =>
                  simp only [World.log]
                  rcases SudoRun.body_path needs cb uuid q cmd w1.calls s
                    { script := w1.script, calls := w1.calls + 1,
                      openSessions := w1.openSessions ++ [w1.calls],
                      openStdin := w1.openStdin ++ [w1.calls],
                      trace := w1.trace ++ [Event.newSession w1.calls none]
                        ++ [Event.stdinPipe w1.calls none] ++ [Event.stdoutPipe w1.calls none]
                        ++ [Event.stderrPipe w1.calls none] } with
                    ⟨e, h3, heq⟩ | ⟨h3, evs, err, hp, hrest⟩
                  · simp only [outReader, errReader] at heq
                    rw [heq]
                    simpa [World.afterRun, World.log, Session.Close, Stdin.Close, closeEvents] using
                      (RunPath.startFailed s hs h0 h1 h2 e h3 : RunPath needs w1 cb uuid q cmd _)
                  · rcases hrest with ⟨e, rfl, heq⟩ |
                      ⟨rfl, reads, ⟨e, hf, heq⟩ | ⟨hfree, hd, heq⟩ | ⟨hfree, hm, so, se, heq⟩⟩
                    · simp only [outReader, errReader] at heq
                      rw [heq]
                      simpa [World.afterRun, World.log, Session.Close, Stdin.Close,
                        startedEvents, closeEvents] using
                        (RunPath.promptFailed s hs h0 h1 h2 h3 evs e hp :
                          RunPath needs w1 cb uuid q cmd _)
                    · simp only [outReader, errReader] at heq
                      rw [heq]
                      simpa [World.afterRun, World.log, Session.Close, Stdin.Close,
                        startedEvents, closeEvents] using
                        (RunPath.readyFailed s hs h0 h1 h2 h3 evs hp reads e hf :
                          RunPath needs w1 cb uuid q cmd _)
                    · simp only [outReader, errReader] at heq
                      rw [heq]
                      simpa [World.afterRun, World.log, Session.Close, Stdin.Close,
                        startedEvents, closeEvents] using
                        (RunPath.noReady s hs h0 h1 h2 h3 evs hp reads hfree hd :
                          RunPath needs w1 cb uuid q cmd _)
                    · simp only [outReader, errReader] at heq
                      rw [heq]
                      simpa [World.afterRun, World.log, Session.Close, Stdin.Close,
                        startedEvents, closeEvents] using
                        (RunPath.ready s hs h0 h1 h2 h3 evs hp reads hfree hm so se :
                          RunPath needs w1 cb uuid q cmd _)

/-! ## The probe -/

theorem CheckSudoNeedsPassword_eq (w : World) :
    CheckSudoNeedsPassword w
      = match w.script w.calls with
        | .error e =>
            (.error e,
              { w with calls := w.calls + 1,
                       trace := w.trace ++ [Event.newSession w.calls (some e)] })
        | .ok p => (probeAnswer p.runResult, w.probed p) := by
  unfold CheckSudoNeedsPassword World.NewSession
  cases hs : w.script w.calls with
  | error e => rfl
  | ok p =>
      simp only [Session.Run, World.log, probeAnswer, World.probed, SessionScript.runResult]
      cases hst : p.startErr with
      | some e => cases hx : e.isExitError <;> simp [hx]
      | none =>
          cases hr : p.waitErr with
          | none => simp
          | some e => cases hx : e.isExitError <;> simp [hx]

/-- C9 (the probe session is left open): on a fresh client whose probe session opens
but on which `Run` cannot start `sudo -n -v` (its `Start` fails with the error
`other 2`), the probe returns the wrapped error, and its session 0 is still open
when it returns: no session was open before, session 0 is open after, and no
`Close` of it was ever called.  (When the command does run, the session is closed
on the return of `Wait`: no session is open after such a probe.) -/
theorem CheckSudoNeedsPassword_leaves_session_open :
    (CheckSudoNeedsPassword
        (freshWorld
          (.ok { scriptedSession none [] [] with startErr := some (GoError.other 2) })
          (.ok (scriptedSession none [] [])))).1
      = .error (GoError.wrapf
          "Could not run sudo -n -v to check for sudo password requirement: " (GoError.other 2))
    ∧ (freshWorld
        (.ok { scriptedSession none [] [] with startErr := some (GoError.other 2) })
        (.ok (scriptedSession none [] []))).openSessions = []
    ∧ (CheckSudoNeedsPassword
        (freshWorld
          (.ok { scriptedSession none [] [] with startErr := some (GoError.other 2) })
          (.ok (scriptedSession none [] [])))).2.openSessions = [0]
    ∧ Event.closeSession 0 ∉ (CheckSudoNeedsPassword
        (freshWorld
          (.ok { scriptedSession none [] [] with startErr := some (GoError.other 2) })
          (.ok (scriptedSession none [] [])))).2.trace
    ∧ (CheckSudoNeedsPassword
        (freshWorld (.ok (scriptedSession none [] []))
          (.ok (scriptedSession none [] [])))).2.openSessions = [] := by
  refine ⟨rfl, rfl, rfl, ?_, rfl⟩
  decide

/-- Case analysis of a run: the probe could not open its session, the probe failed,
or the probe answered and the run went one of the ways of `RunPath`. -/
theorem SudoRun_elim (w : World) (cb : SudoPasswordCallback) (uuid : GoString)
    (q : GoString → GoString) (cmd : List GoString) (P : RunResult × World → Prop)
    (h0 : ∀ e, w.script w.calls = .error e →
      P (RunResult.failed e,
          { w with calls := w.calls + 1,
                   trace := w.trace ++ [Event.newSession w.calls (some e)] }))
    (h1 : ∀ p e, w.script w.calls = .ok p → probeAnswer p.runResult = .error e →
      P (RunResult.failed e, w.probed p))
    (h2 : ∀ p needs out, w.script w.calls = .ok p → probeAnswer p.runResult = .ok needs →
      RunPath needs (w.probed p) cb uuid q cmd out → P out) :
    P (SudoRun w cb uuid q cmd) := by
  have hprobe := CheckSudoNeedsPassword_eq w
  cases hs : w.script w.calls with
  | error e =>
      rw [hs] at hprobe
      simp only at hprobe
      have : SudoRun w cb uuid q cmd
          = (RunResult.failed e,
              { w with calls := w.calls + 1,
                       trace := w.trace ++ [Event.newSession w.calls (some e)] }) := by
        unfold SudoRun
        rw [hprobe]
      rw [this]
      exact h0 e hs
  | ok p =>
      rw [hs] at hprobe
      simp only at hprobe
      cases ha : probeAnswer p.runResult with
      | error e =>
          rw [ha] at hprobe
          have : SudoRun w cb uuid q cmd = (RunResult.failed e, w.probed p) := by
            unfold SudoRun
            rw [hprobe]
          rw [this]
          exact h1 p e hs ha
      | ok needs =>
          rw [ha] at hprobe
          exact h2 p needs _ hs ha (SudoRun_path w _ needs cb uuid q cmd hprobe)

theorem ErrorFree.no_err {reads : List ReadResult} (h : ErrorFree reads) (bt : Option Byte)
    (e : GoError) : (⟨bt, some e⟩ : ReadResult) ∉ reads := by
  intro hmem
  have := h _ hmem
  simp at this

theorem FailsWith.unique {reads : List ReadResult} {e : GoError} (h : FailsWith reads e)
    (bt : Option Byte) (e1 : GoError) (hmem : (⟨bt, some e1⟩ : ReadResult) ∈ reads) : e = e1 :=
  (h.2 _ hmem _ rfl).symm

/-! ## How failures are reported -/

/-- The events of a run decide the error it returns. -/
theorem run_failure_report (w : World) (cb : SudoPasswordCallback) (uuid : GoString)
    (q : GoString → GoString) (cmd : List GoString) :
    ∃ new, (SudoRun w cb uuid q cmd).2.trace = w.trace ++ new
      ∧ (∀ id c e, Event.run id c (some e) ∈ new → e.isExitError = false →
          (SudoRun w cb uuid q cmd).1.err = some (GoError.wrapf
            "Could not run sudo -n -v to check for sudo password requirement: " e))
      ∧ (∀ e, Event.newSession (w.calls + 1) (some e) ∈ new →
          (SudoRun w cb uuid q cmd).1.err
            = some (GoError.wrapf "could not start an ssh session " e))
      ∧ (∀ id c e, Event.start id c (some e) ∈ new →
          (SudoRun w cb uuid q cmd).1.err = some (GoError.wrapf "failed to start session: " e))
      ∧ (∀ id bt e, Event.read id Std.err ⟨bt, some e⟩ ∈ new →
          (SudoRun w cb uuid q cmd).1.err
            = some (GoError.wrapf "error while expecting sudo prompt: "
                (GoError.wrapf "error while reading: " e)))
      ∧ (∀ id bt e, Event.read id Std.out ⟨bt, some e⟩ ∈ new →
          (SudoRun w cb uuid q cmd).1.err
            = some (GoError.wrapf "error while expecting READY flag: "
                (GoError.wrapf "error while reading: " e)))
      ∧ (∀ e, Event.newSession w.calls (some e) ∈ new → (SudoRun w cb uuid q cmd).1.err = some e)
      ∧ (∀ id e, Event.stdinPipe id (some e) ∈ new → (SudoRun w cb uuid q cmd).1.err = some e)
      ∧ (∀ id e, Event.stdoutPipe id (some e) ∈ new → (SudoRun w cb uuid q cmd).1.err = some e)
      ∧ (∀ id e, Event.stderrPipe id (some e) ∈ new → (SudoRun w cb uuid q cmd).1.err = some e)
      ∧ (∀ id d n e, Event.write id d n (some e) ∈ new →
          (SudoRun w cb uuid q cmd).1.err = some e) := by
  refine SudoRun_elim w cb uuid q cmd
    (fun out => ∃ new, out.2.trace = w.trace ++ new
      ∧ (∀ id c e, Event.run id c (some e) ∈ new → e.isExitError = false →
          out.1.err = some (GoError.wrapf
            "Could not run sudo -n -v to check for sudo password requirement: " e))
      ∧ (∀ e, Event.newSession (w.calls + 1) (some e) ∈ new →
          out.1.err = some (GoError.wrapf "could not start an ssh session " e))
      ∧ (∀ id c e, Event.start id c (some e) ∈ new →
          out.1.err = some (GoError.wrapf "failed to start session: " e))
      ∧ (∀ id bt e, Event.read id Std.err ⟨bt, some e⟩ ∈ new →
          out.1.err = some (GoError.wrapf "error while expecting sudo prompt: "
                (GoError.wrapf "error while reading: " e)))
      ∧ (∀ id bt e, Event.read id Std.out ⟨bt, some e⟩ ∈ new →
          out.1.err = some (GoError.wrapf "error while expecting READY flag: "
                (GoError.wrapf "error while reading: " e)))
      ∧ (∀ e, Event.newSession w.calls (some e) ∈ new → out.1.err = some e)
      ∧ (∀ id e, Event.stdinPipe id (some e) ∈ new → out.1.err = some e)
      ∧ (∀ id e, Event.stdoutPipe id (some e) ∈ new → out.1.err = some e)
      ∧ (∀ id e, Event.stderrPipe id (some e) ∈ new → out.1.err = some e)
      ∧ (∀ id d n e, Event.write id d n (some e) ∈ new → out.1.err = some e)) ?_ ?_ ?_
  · intro e _
    refine ⟨_, rfl, ?_⟩
    simp [RunResult.failed]
  · intro p e _ ha
    refine ⟨_, rfl, ?_⟩
    cases hr : p.runResult with
    | none => simp [probeAnswer, hr] at ha
    | some c =>
        cases hx : c.isExitError with
        | true => simp [probeAnswer, hr, hx] at ha
        | false =>
            simp [probeAnswer, hr, hx] at ha
            subst ha
            simp [RunResult.failed]
            intro _ _ _ _ _ h _; exact h.symm
  · intro p needs out _ ha hpath
    have hrun : ∀ e, some e = p.runResult → e.isExitError = true := by
      intro e hr
      cases hx : e.isExitError with
      | true => rfl
      | false => simp [probeAnswer, ← hr, hx] at ha
    cases hpath with
    | noSession e h =>
        refine ⟨_, by simp only [World.afterRun, World.probed, List.append_assoc]; rfl, ?_⟩
        simp [RunResult.failed, World.probed]
        aesop
    | stdinPipeFailed s h e he =>
        refine ⟨_, by simp only [World.afterRun, World.probed, List.append_assoc]; rfl, ?_⟩
        simp [RunResult.failed, World.probed]
        aesop
    | stdoutPipeFailed s h h0 e he =>
        refine ⟨_, by simp only [World.afterRun, World.probed, List.append_assoc]; rfl, ?_⟩
        simp [RunResult.failed, World.probed, closeEvents]
        aesop
    | stderrPipeFailed s h h0 h1 e he =>
        refine ⟨_, by simp only [World.afterRun, World.probed, List.append_assoc]; rfl, ?_⟩
        simp [RunResult.failed, World.probed, closeEvents]
        aesop
    | startFailed s h h0 h1 h2 e he =>
        refine ⟨_, by simp only [World.afterRun, World.probed, List.append_assoc]; rfl, ?_⟩
        simp [RunResult.failed, World.probed, closeEvents]
        aesop
    | promptFailed s h h0 h1 h2 h3 evs e hp =>
        cases hp with
        | scanFailed hn reads e hf =>
            have hu := hf.unique
            refine ⟨_, by simp only [World.afterRun, World.probed, List.append_assoc]; rfl, ?_⟩
            simp [RunResult.failed, World.probed, startedEvents, closeEvents, mem_readEvents]
            aesop
        | noPrompt hn reads hfree hd =>
            refine ⟨_, by simp only [World.afterRun, World.probed, List.append_assoc]; rfl, ?_⟩
            simp [RunResult.failed, World.probed, startedEvents, closeEvents, mem_readEvents,
              hfree.no_err]
            aesop
        | callbackFailed hn reads hfree hm e hc =>
            refine ⟨_, by simp only [World.afterRun, World.probed, List.append_assoc]; rfl, ?_⟩
            simp [RunResult.failed, World.probed, startedEvents, closeEvents, mem_readEvents,
              hfree.no_err]
            aesop
        | writeFailed hn reads hfree hm pwd hc m e hw =>
            refine ⟨_, by simp only [World.afterRun, World.probed, List.append_assoc]; rfl, ?_⟩
            simp [RunResult.failed, World.probed, startedEvents, closeEvents, mem_readEvents,
              hfree.no_err]
            aesop
        | writeShort hn reads hfree hm pwd hc m hw hlen =>
            refine ⟨_, by simp only [World.afterRun, World.probed, List.append_assoc]; rfl, ?_⟩
            simp [RunResult.failed, World.probed, startedEvents, closeEvents, mem_readEvents,
              hfree.no_err]
            aesop
    | readyFailed s h h0 h1 h2 h3 evs hp reads e hf =>
        have hu := hf.unique
        cases hp with
        | skipped hn =>
            refine ⟨_, by simp only [World.afterRun, World.probed, List.append_assoc]; rfl, ?_⟩
            simp [RunResult.failed, World.probed, startedEvents, closeEvents, mem_readEvents]
            aesop
        | sent hn reads' hfree hm pwd hc m hw hlen =>
            refine ⟨_, by simp only [World.afterRun, World.probed, List.append_assoc]; rfl, ?_⟩
            simp [RunResult.failed, World.probed, startedEvents, closeEvents, mem_readEvents,
              hfree.no_err]
            aesop
    | noReady s h h0 h1 h2 h3 evs hp reads hfree hd =>
        cases hp with
        | skipped hn =>
            refine ⟨_, by simp only [World.afterRun, World.probed, List.append_assoc]; rfl, ?_⟩
            simp [RunResult.failed, World.probed, startedEvents, closeEvents, mem_readEvents,
              hfree.no_err]
            aesop
        | sent hn reads' hfree' hm pwd hc m hw hlen =>
            refine ⟨_, by simp only [World.afterRun, World.probed, List.append_assoc]; rfl, ?_⟩
            simp [RunResult.failed, World.probed, startedEvents, closeEvents, mem_readEvents,
              hfree.no_err, hfree'.no_err]
            aesop
    | ready s h h0 h1 h2 h3 evs hp reads hfree hm so se =>
        cases hp with
        | skipped hn =>
            refine ⟨_, by simp only [World.afterRun, World.probed, List.append_assoc]; rfl, ?_⟩
            simp [RunResult.failed, World.probed, startedEvents, closeEvents, mem_readEvents,
              hfree.no_err]
            aesop
        | sent hn reads' hfree' hm pwd hc m hw hlen =>
            refine ⟨_, by simp only [World.afterRun, World.probed, List.append_assoc]; rfl, ?_⟩
            simp [RunResult.failed, World.probed, startedEvents, closeEvents, mem_readEvents,
              hfree.no_err, hfree'.no_err]
            aesop

/-- C10 (as implemented): the events `new` of a run decide the error it returns.  A failed
`Run` of the probe (other than a non-zero exit), a failed `NewSession` of the run, a
failed `Start` and a read error while scanning either stream come back as a new
error whose message names the step and which wraps the cause (a read error under
two layers, the inner one from the scanner); a failed `NewSession` of the probe, a
failed acquisition of any of the three streams and a failed write of the password
come back as the cause itself, unwrapped.  The probe on its own returns the same
errors: the cause itself when its `NewSession` fails, the wrapped cause when its
`Run` fails other than by a non-zero exit. -/
theorem SudoRun_wraps_failures (w : World) (cb : SudoPasswordCallback) (uuid : GoString)
    (q : GoString → GoString) (cmd : List GoString) :
    (∃ new, (SudoRun w cb uuid q cmd).2.trace = w.trace ++ new
      ∧ (∀ id c e, Event.run id c (some e) ∈ new → e.isExitError = false →
          (SudoRun w cb uuid q cmd).1.err = some (GoError.wrapf
            "Could not run sudo -n -v to check for sudo password requirement: " e))
      ∧ (∀ e, Event.newSession (w.calls + 1) (some e) ∈ new →
          (SudoRun w cb uuid q cmd).1.err
            = some (GoError.wrapf "could not start an ssh session " e))
      ∧ (∀ id c e, Event.start id c (some e) ∈ new →
          (SudoRun w cb uuid q cmd).1.err = some (GoError.wrapf "failed to start session: " e))
      ∧ (∀ id bt e, Event.read id Std.err ⟨bt, some e⟩ ∈ new →
          (SudoRun w cb uuid q cmd).1.err
            = some (GoError.wrapf "error while expecting sudo prompt: "
                (GoError.wrapf "error while reading: " e)))
      ∧ (∀ id bt e, Event.read id Std.out ⟨bt, some e⟩ ∈ new →
          (SudoRun w cb uuid q cmd).1.err
            = some (GoError.wrapf "error while expecting READY flag: "
                (GoError.wrapf "error while reading: " e)))
      ∧ (∀ e, Event.newSession w.calls (some e) ∈ new → (SudoRun w cb uuid q cmd).1.err = some e)
      ∧ (∀ id e, Event.stdinPipe id (some e) ∈ new → (SudoRun w cb uuid q cmd).1.err = some e)
      ∧ (∀ id e, Event.stdoutPipe id (some e) ∈ new → (SudoRun w cb uuid q cmd).1.err = some e)
      ∧ (∀ id e, Event.stderrPipe id (some e) ∈ new → (SudoRun w cb uuid q cmd).1.err = some e)
      ∧ (∀ id d n e, Event.write id d n (some e) ∈ new →
          (SudoRun w cb uuid q cmd).1.err = some e))
      ∧ (∀ e, w.script w.calls = .error e → (CheckSudoNeedsPassword w).1 = .error e)
      ∧ (∀ p e, w.script w.calls = .ok p → p.runResult = some e → e.isExitError = false →
          (CheckSudoNeedsPassword w).1 = .error (GoError.wrapf
            "Could not run sudo -n -v to check for sudo password requirement: " e)) := by
  refine ⟨run_failure_report w cb uuid q cmd, ?_, ?_⟩
  · intro e h
    rw [CheckSudoNeedsPassword_eq, h]
  · intro p e h hr hx
    rw [CheckSudoNeedsPassword_eq, h]
    simp [probeAnswer, hr, hx]

/-- C10 (counterexample): on a client whose first `NewSession` fails with the error
`other 1`, the probe and the run both return that very error: it is the cause
itself, not a new error around it (it has nothing to unwrap, and its message does
not name a step). -/
theorem probe_session_error_returned_bare :
    (CheckSudoNeedsPassword (freshWorld (.error (GoError.other 1)) (.error (GoError.other 1)))).1
        = .error (GoError.other 1)
    ∧ (SudoRun (freshWorld (.error (GoError.other 1)) (.error (GoError.other 1)))
        (.ok []) [] (fun s => s) []).1.err = some (GoError.other 1)
    ∧ (GoError.other 1).Unwrap = none
    ∧ (GoError.other 1).Error = "error" :=
  ⟨rfl, rfl, rfl, rfl⟩

theorem SudoRun_wraps_failures_witness :
    (SudoRun (freshWorld (.ok (scriptedSession none [] []))
        (.ok { scriptedSession none [] [] with startErr := some (GoError.other 3) }))
        (.ok []) [] (fun s => s) [ascii "ls"]).1.err
      = some (GoError.wrapf "failed to start session: " (GoError.other 3)) := by
  obtain ⟨⟨new, htr, _, _, hstart, _⟩, _⟩ :=
    SudoRun_wraps_failures (freshWorld (.ok (scriptedSession none [] []))
        (.ok { scriptedSession none [] [] with startErr := some (GoError.other 3) }))
        (.ok []) [] (fun s => s) [ascii "ls"]
  have hnew : Event.start 1 (SudoRun.startCommand false [] (fun s => s) [ascii "ls"])
      (some (GoError.other 3)) ∈ new := by
    have : (SudoRun (freshWorld (.ok (scriptedSession none [] []))
        (.ok { scriptedSession none [] [] with startErr := some (GoError.other 3) }))
        (.ok []) [] (fun s => s) [ascii "ls"]).2.trace
        = [Event.newSession 0 none, Event.run 0 (ascii "sudo -n -v") none,
            Event.newSession 1 none, Event.stdinPipe 1 none, Event.stdoutPipe 1 none,
            Event.stderrPipe 1 none,
            Event.start 1 (SudoRun.startCommand false [] (fun s => s) [ascii "ls"])
              (some (GoError.other 3)),
            Event.closeStdin 1, Event.closeSession 1] := rfl
    rw [this] at htr
    have hnil : (freshWorld (.ok (scriptedSession none [] []))
        (.ok { scriptedSession none [] [] with startErr := some (GoError.other 3) })).trace
        = [] := rfl
    rw [hnil, List.nil_append] at htr
    rw [← htr]
    simp
  exact hstart 1 _ _ hnew

/-! ## The command line -/

theorem intercalate_cons_cons (sep x y : GoString) (xs : List GoString) :
    List.intercalate sep (x :: y :: xs) = x ++ (sep ++ List.intercalate sep (y :: xs)) := by
  simp [List.intercalate, List.intersperse]

theorem commandline_fold (q : GoString → GoString) (cs : List GoString) :
    ∀ (acc : GoString) (c : GoString),
      ((c :: cs).foldl
        (fun (st : GoString × GoString) c => (st.1 ++ (st.2 ++ q c), ascii " "))
        (acc, ascii " ")).1
        = acc ++ (ascii " " ++ List.intercalate (ascii " ") ((c :: cs).map q)) := by
  induction cs with
  | nil => intro acc c; simp [List.intercalate, List.intersperse]
  | cons d ds ih =>
      intro acc c
      rw [List.foldl_cons, ih]
      simp only [List.map_cons, intercalate_cons_cons, List.append_assoc]

/-- The loop joins the quoted arguments with single spaces. -/
theorem SudoRun.commandline_eq (q : GoString → GoString) (command : List GoString) :
    SudoRun.commandline q command = List.intercalate (ascii " ") (command.map q) := by
  cases command with
  | nil => rfl
  | cons c cs =>
      cases cs with
      | nil => simp [SudoRun.commandline, List.intercalate, List.intersperse, ascii]
      | cons d ds =>
          unfold SudoRun.commandline
          rw [List.foldl_cons]
          have h := commandline_fold q ds ([] ++ (ascii "" ++ q c)) d
          rw [h]
          simp [intercalate_cons_cons, ascii]

theorem CheckSudoNeedsPassword_answer (w : World) (p : SessionScript)
    (hs : w.script w.calls = .ok p) : (CheckSudoNeedsPassword w).1 = probeAnswer p.runResult := by
  rw [CheckSudoNeedsPassword_eq, hs]

/-- C8 (as implemented): whatever the arguments and the quoting adapter `q`, a `Start` that
a run makes was preceded by an answer `needs` of the probe, and the string it is
given is `sudo -S <opt> /bin/sh -c 'echo READY;'<Q>`: `<opt>` is `-n` when no
password is needed and `-p ` followed by `q uuid` when one is, `<Q>` is `q` of the
quoted arguments joined by single spaces, and `<Q>` follows the fragment
`'echo READY;'` directly, with no space in between. -/
theorem SudoRun_start_command (w : World) (cb : SudoPasswordCallback) (uuid : GoString)
    (q : GoString → GoString) (cmd : List GoString) :
    ∃ new, (SudoRun w cb uuid q cmd).2.trace = w.trace ++ new
      ∧ ∀ id c err, Event.start id c err ∈ new →
          ∃ needs, (CheckSudoNeedsPassword w).1 = .ok needs
            ∧ c = ascii "sudo -S " ++ (if needs then ascii "-p " ++ q uuid else ascii "-n")
                ++ ascii " /bin/sh -c 'echo READY;'"
                ++ q (List.intercalate (ascii " ") (cmd.map q)) := by
  have hcmd : ∀ needs, SudoRun.startCommand needs uuid q cmd
      = ascii "sudo -S " ++ (if needs then ascii "-p " ++ q uuid else ascii "-n")
          ++ ascii " /bin/sh -c 'echo READY;'"
          ++ q (List.intercalate (ascii " ") (cmd.map q)) := by
    intro needs
    simp only [SudoRun.startCommand, SudoRun.commandline_eq]
    cases needs <;> simp
  refine SudoRun_elim w cb uuid q cmd
    (fun out => ∃ new, out.2.trace = w.trace ++ new
      ∧ ∀ id c err, Event.start id c err ∈ new →
          ∃ needs, (CheckSudoNeedsPassword w).1 = .ok needs
            ∧ c = ascii "sudo -S " ++ (if needs then ascii "-p " ++ q uuid else ascii "-n")
                ++ ascii " /bin/sh -c 'echo READY;'"
                ++ q (List.intercalate (ascii " ") (cmd.map q))) ?_ ?_ ?_
  · intro e _
    exact ⟨_, rfl, by simp⟩
  · intro p e _ _
    exact ⟨_, rfl, by simp⟩
  · intro p needs out hs ha hpath
    have hans : (CheckSudoNeedsPassword w).1 = .ok needs := by
      rw [CheckSudoNeedsPassword_answer w p hs, ha]
    have key : ∀ c, c = SudoRun.startCommand needs uuid q cmd →
        ∃ needs, (CheckSudoNeedsPassword w).1 = .ok needs
          ∧ c = ascii "sudo -S " ++ (if needs then ascii "-p " ++ q uuid else ascii "-n")
              ++ ascii " /bin/sh -c 'echo READY;'"
              ++ q (List.intercalate (ascii " ") (cmd.map q)) :=
      fun c hc => ⟨needs, hans, hc.trans (hcmd needs)⟩
    cases hpath with
    | noSession e h =>
        exact ⟨_, by simp only [World.afterRun, World.probed, List.append_assoc]; rfl, by simp⟩
    | stdinPipeFailed s h e he =>
        exact ⟨_, by simp only [World.afterRun, World.probed, List.append_assoc]; rfl, by simp⟩
    | stdoutPipeFailed s h h0 e he =>
        exact ⟨_, by simp only [World.afterRun, World.probed, List.append_assoc]; rfl,
          by simp [closeEvents]⟩
    | stderrPipeFailed s h h0 h1 e he =>
        exact ⟨_, by simp only [World.afterRun, World.probed, List.append_assoc]; rfl,
          by simp [closeEvents]⟩
    | startFailed s h h0 h1 h2 e he =>
        refine ⟨_, by simp only [World.afterRun, World.probed, List.append_assoc]; rfl, ?_⟩
        simp only [closeEvents]
        intro id c err hmem
        simp at hmem
        exact key c hmem.2.1
    | promptFailed s h h0 h1 h2 h3 evs e hp =>
        refine ⟨_, by simp only [World.afterRun, World.probed, List.append_assoc]; rfl, ?_⟩
        intro id c err hmem
        have hno : ∀ id c err, Event.start id c err ∉ evs := by
          intro id c err
          cases hp <;> simp [mem_readEvents]
        simp [startedEvents, closeEvents, hno] at hmem
        exact key c hmem.2.1
    | readyFailed s h h0 h1 h2 h3 evs hp reads e hf =>
        refine ⟨_, by simp only [World.afterRun, World.probed, List.append_assoc]; rfl, ?_⟩
        intro id c err hmem
        have hno : ∀ id c err, Event.start id c err ∉ evs := by
          intro id c err
          cases hp <;> simp [mem_readEvents]
        simp [startedEvents, closeEvents, hno, mem_readEvents] at hmem
        exact key c hmem.2.1
    | noReady s h h0 h1 h2 h3 evs hp reads hfree hd =>
        refine ⟨_, by simp only [World.afterRun, World.probed, List.append_assoc]; rfl, ?_⟩
        intro id c err hmem
        have hno : ∀ id c err, Event.start id c err ∉ evs := by
          intro id c err
          cases hp <;> simp [mem_readEvents]
        simp [startedEvents, closeEvents, hno, mem_readEvents] at hmem
        exact key c hmem.2.1
    | ready s h h0 h1 h2 h3 evs hp reads hfree hm so se =>
        refine ⟨_, by simp only [World.afterRun, World.probed, List.append_assoc]; rfl, ?_⟩
        intro id c err hmem
        have hno : ∀ id c err, Event.start id c err ∉ evs := by
          intro id c err
          cases hp <;> simp [mem_readEvents]
        simp [startedEvents, closeEvents, hno, mem_readEvents] at hmem
        exact key c hmem.2.1

theorem ascii_ready : ascii "READY\n" = [82, 69, 65, 68, 89, 10] := by decide

theorem passwordless_ls_trace :
    (SudoRun (passwordlessWorld (ascii "READY\n")) (SudoStaticPasswordCallback (ascii "pw"))
        (ascii "nonce") exampleQuote [ascii "ls", ascii "-l"]).2.trace
      = [Event.newSession 0 none, Event.run 0 (ascii "sudo -n -v") none,
          Event.newSession 1 none, Event.stdinPipe 1 none, Event.stdoutPipe 1 none,
          Event.stderrPipe 1 none,
          Event.start 1 (ascii "sudo -S -n /bin/sh -c 'echo READY;'''ls' '-l''") none,
          Event.read 1 Std.out ⟨some 82, none⟩, Event.read 1 Std.out ⟨some 69, none⟩,
          Event.read 1 Std.out ⟨some 65, none⟩, Event.read 1 Std.out ⟨some 68, none⟩,
          Event.read 1 Std.out ⟨some 89, none⟩, Event.read 1 Std.out ⟨some 10, none⟩] := by
  have hc : SudoRun.startCommand false (ascii "nonce") exampleQuote [ascii "ls", ascii "-l"]
      = ascii "sudo -S -n /bin/sh -c 'echo READY;'''ls' '-l''" := by decide
  simp [SudoRun, CheckSudoNeedsPassword, World.NewSession, passwordlessWorld, freshWorld,
    scriptedSession, Session.Run, World.log, GoError.isExitError, SudoRun.withSession,
    openSessionPipes, Session.StdinPipe, Session.StdoutPipe, Session.StderrPipe, SudoRun.body,
    Session.Start, SudoRun.prompt, ascii_ready, expectOnly_end, expectOnly_cons, expectOnly_nil,
    RunResult.failed, hc]

/-- C8 (counterexample): with the arguments `ls` and `-l` and an adapter that puts
single quotes around its argument, the string handed to `Start` is
`sudo -S -n /bin/sh -c 'echo READY;'''ls' '-l''`: the quoted command follows
`'echo READY;'` directly.  The string of the template, which has a space there, is
a different string and is not what `Start` was given. -/
theorem start_command_has_no_space_after_echo :
    Event.start 1 (ascii "sudo -S -n /bin/sh -c 'echo READY;'''ls' '-l''") none
        ∈ (SudoRun (passwordlessWorld (ascii "READY\n"))
            (SudoStaticPasswordCallback (ascii "pw")) (ascii "nonce") exampleQuote
            [ascii "ls", ascii "-l"]).2.trace
    ∧ ascii "sudo -S " ++ ascii "-n" ++ ascii " /bin/sh -c 'echo READY;'" ++ ascii " "
          ++ exampleQuote (List.intercalate (ascii " ")
              ([ascii "ls", ascii "-l"].map exampleQuote))
        = ascii "sudo -S -n /bin/sh -c 'echo READY;' ''ls' '-l''"
    ∧ ∀ id err, Event.start id (ascii "sudo -S -n /bin/sh -c 'echo READY;' ''ls' '-l''") err
        ∉ (SudoRun (passwordlessWorld (ascii "READY\n"))
            (SudoStaticPasswordCallback (ascii "pw")) (ascii "nonce") exampleQuote
            [ascii "ls", ascii "-l"]).2.trace := by
  rw [passwordless_ls_trace]
  refine ⟨by decide, by decide, ?_⟩
  intro id err
  simp
  intro _ h
  exact absurd h (by decide)

theorem SudoRun_start_command_witness :
    ∃ needs, (CheckSudoNeedsPassword (passwordlessWorld (ascii "READY\n"))).1 = .ok needs
      ∧ ascii "sudo -S -n /bin/sh -c 'echo READY;'''ls' '-l''"
          = ascii "sudo -S " ++ (if needs then ascii "-p " ++ exampleQuote (ascii "nonce")
              else ascii "-n")
            ++ ascii " /bin/sh -c 'echo READY;'"
            ++ exampleQuote (List.intercalate (ascii " ")
                ([ascii "ls", ascii "-l"].map exampleQuote)) := by
  obtain ⟨new, htr, h⟩ := SudoRun_start_command (passwordlessWorld (ascii "READY\n"))
    (SudoStaticPasswordCallback (ascii "pw")) (ascii "nonce") exampleQuote
    [ascii "ls", ascii "-l"]
  rw [passwordless_ls_trace] at htr
  have hnil : (passwordlessWorld (ascii "READY\n")).trace = [] := rfl
  rw [hnil, List.nil_append] at htr
  refine h 1 _ none ?_
  rw [← htr]
  simp

/-! ## The password callback -/

theorem ascii_nonce : ascii "nonce" = [110, 111, 110, 99, 101] := by decide

theorem errorsIs_passwordCallbackFailure (e target : GoError)
    (h1 : target ≠ GoError.passwordCallbackFailure e)
    (h2 : GoError.IsMethod (GoError.passwordCallbackFailure e) target = false) :
    errorsIs (GoError.passwordCallbackFailure e) target = errorsIs e target := by
  rw [errorsIs]
  simp [h2, Ne.symm h1]

/-- C6 (as implemented): if during a run the password callback returns the error `e`, the
run returns `r = PasswordCallbackFailureError{e}`: `errors.Is(r,
PasswordCallbackFailureError{})` holds, `errors.Unwrap(r)` is `e`, all four handles
are nil, `r` is neither `ErrNoSudoPrompt` nor `ErrNoReadyFlag`, and `errors.Is`
classifies `r` as one of these two exactly when it so classifies `e` itself;
nothing was written to the input stream, and the session of the run is closed. -/
theorem SudoRun_callback_failure (w : World) (cb : SudoPasswordCallback) (uuid : GoString)
    (q : GoString → GoString) (cmd : List GoString) (e : GoError) :
    ∃ new, (SudoRun w cb uuid q cmd).2.trace = w.trace ++ new
      ∧ (Event.callback (some e) ∈ new →
          (SudoRun w cb uuid q cmd).1.err = some (GoError.passwordCallbackFailure e)
          ∧ errorsIs (GoError.passwordCallbackFailure e) GoError.passwordCallbackFailureZero = true
          ∧ (GoError.passwordCallbackFailure e).Unwrap = some e
          ∧ (SudoRun w cb uuid q cmd).1.stdin.isNone ∧ (SudoRun w cb uuid q cmd).1.stdout.isNone
          ∧ (SudoRun w cb uuid q cmd).1.stderr.isNone ∧ (SudoRun w cb uuid q cmd).1.session.isNone
          ∧ GoError.passwordCallbackFailure e ≠ GoError.errNoSudoPrompt
          ∧ GoError.passwordCallbackFailure e ≠ GoError.errNoReadyFlag
          ∧ errorsIs (GoError.passwordCallbackFailure e) GoError.errNoSudoPrompt
              = errorsIs e GoError.errNoSudoPrompt
          ∧ errorsIs (GoError.passwordCallbackFailure e) GoError.errNoReadyFlag
              = errorsIs e GoError.errNoReadyFlag
          ∧ (∀ id d n err, Event.write id d n err ∉ new)
          ∧ Event.closeSession (w.calls + 1) ∈ new
          ∧ (w.calls + 1) ∉ (SudoRun w cb uuid q cmd).2.openSessions) := by
  have hIs : errorsIs (GoError.passwordCallbackFailure e) GoError.passwordCallbackFailureZero
      = true := by
    rw [errorsIs]; simp [GoError.IsMethod]
  have hP := errorsIs_passwordCallbackFailure e GoError.errNoSudoPrompt (by simp) rfl
  have hR := errorsIs_passwordCallbackFailure e GoError.errNoReadyFlag (by simp) rfl
  refine SudoRun_elim w cb uuid q cmd
    (fun out => ∃ new, out.2.trace = w.trace ++ new
      ∧ (Event.callback (some e) ∈ new →
          out.1.err = some (GoError.passwordCallbackFailure e)
          ∧ errorsIs (GoError.passwordCallbackFailure e) GoError.passwordCallbackFailureZero = true
          ∧ (GoError.passwordCallbackFailure e).Unwrap = some e
          ∧ out.1.stdin.isNone ∧ out.1.stdout.isNone
          ∧ out.1.stderr.isNone ∧ out.1.session.isNone
          ∧ GoError.passwordCallbackFailure e ≠ GoError.errNoSudoPrompt
          ∧ GoError.passwordCallbackFailure e ≠ GoError.errNoReadyFlag
          ∧ errorsIs (GoError.passwordCallbackFailure e) GoError.errNoSudoPrompt
              = errorsIs e GoError.errNoSudoPrompt
          ∧ errorsIs (GoError.passwordCallbackFailure e) GoError.errNoReadyFlag
              = errorsIs e GoError.errNoReadyFlag
          ∧ (∀ id d n err, Event.write id d n err ∉ new)
          ∧ Event.closeSession (w.calls + 1) ∈ new
          ∧ (w.calls + 1) ∉ out.2.openSessions)) ?_ ?_ ?_
  · intro e' _
    exact ⟨_, rfl, by simp⟩
  · intro p e' _ _
    exact ⟨_, rfl, by simp [World.probed]⟩
  · intro p needs out hs ha hpath
    cases hpath with
    | noSession e' h =>
        exact ⟨_, by simp only [World.afterRun, World.probed, List.append_assoc]; rfl, by simp⟩
    | stdinPipeFailed s h e' he =>
        exact ⟨_, by simp only [World.afterRun, World.probed, List.append_assoc]; rfl, by simp⟩
    | stdoutPipeFailed s h h0 e' he =>
        exact ⟨_, by simp only [World.afterRun, World.probed, List.append_assoc]; rfl,
          by simp [closeEvents]⟩
    | stderrPipeFailed s h h0 h1 e' he =>
        exact ⟨_, by simp only [World.afterRun, World.probed, List.append_assoc]; rfl,
          by simp [closeEvents]⟩
    | startFailed s h h0 h1 h2 e' he =>
        exact ⟨_, by simp only [World.afterRun, World.probed, List.append_assoc]; rfl,
          by simp [closeEvents]⟩
    | promptFailed s h h0 h1 h2 h3 evs e' hp =>
        cases hp with
        | scanFailed hn reads e'' hf =>
            exact ⟨_, by simp only [World.afterRun, World.probed, List.append_assoc]; rfl,
              by simp [closeEvents, startedEvents, mem_readEvents]⟩
        | noPrompt hn reads hfree hd =>
            exact ⟨_, by simp only [World.afterRun, World.probed, List.append_assoc]; rfl,
              by simp [closeEvents, startedEvents, mem_readEvents]⟩
        | callbackFailed hn reads hfree hm e'' hc =>
            refine ⟨_, by simp only [World.afterRun, World.probed, List.append_assoc]; rfl, ?_⟩
            intro hmem
            have hee : e = e'' := by
              simpa [closeEvents, startedEvents, mem_readEvents] using hmem
            subst hee
            refine ⟨rfl, hIs, rfl, rfl, rfl, rfl, rfl, by simp, by simp, hP, hR, ?_, ?_, ?_⟩
            · simp [closeEvents, startedEvents, mem_readEvents]
            · simp [closeEvents, startedEvents, mem_readEvents, World.probed]
            · simp [World.afterRun, World.probed]
        | writeFailed hn reads hfree hm pwd hc m e'' hw =>
            exact ⟨_, by simp only [World.afterRun, World.probed, List.append_assoc]; rfl,
              by simp [closeEvents, startedEvents, mem_readEvents]⟩
        | writeShort hn reads hfree hm pwd hc m hw hlen =>
            exact ⟨_, by simp only [World.afterRun, World.probed, List.append_assoc]; rfl,
              by simp [closeEvents, startedEvents, mem_readEvents]⟩
    | readyFailed s h h0 h1 h2 h3 evs hp reads e' hf =>
        cases hp with
        | skipped hn =>
            exact ⟨_, by simp only [World.afterRun, World.probed, List.append_assoc]; rfl,
              by simp [closeEvents, startedEvents, mem_readEvents]⟩
        | sent hn reads' hfree hm pwd hc m hw hlen =>
            exact ⟨_, by simp only [World.afterRun, World.probed, List.append_assoc]; rfl,
              by simp [closeEvents, startedEvents, mem_readEvents]⟩
    | noReady s h h0 h1 h2 h3 evs hp reads hfree hd =>
        cases hp with
        | skipped hn =>
            exact ⟨_, by simp only [World.afterRun, World.probed, List.append_assoc]; rfl,
              by simp [closeEvents, startedEvents, mem_readEvents]⟩
        | sent hn reads' hfree' hm pwd hc m hw hlen =>
            exact ⟨_, by simp only [World.afterRun, World.probed, List.append_assoc]; rfl,
              by simp [closeEvents, startedEvents, mem_readEvents]⟩
    | ready s h h0 h1 h2 h3 evs hp reads hfree hm so se =>
        cases hp with
        | skipped hn =>
            exact ⟨_, by simp only [World.afterRun, World.probed, List.append_assoc]; rfl,
              by simp [closeEvents, startedEvents, mem_readEvents]⟩
        | sent hn reads' hfree' hm pwd hc m hw hlen =>
            exact ⟨_, by simp only [World.afterRun, World.probed, List.append_assoc]; rfl,
              by simp [closeEvents, startedEvents, mem_readEvents]⟩

theorem failing_callback_run (e : GoError) :
    (SudoRun (passwordWorld (ascii "nonce") []) (.error e) (ascii "nonce") exampleQuote
        [ascii "ls"]).2.trace
      = [Event.newSession 0 none,
          Event.run 0 (ascii "sudo -n -v") (some (GoError.exitError 1)),
          Event.newSession 1 none, Event.stdinPipe 1 none, Event.stdoutPipe 1 none,
          Event.stderrPipe 1 none,
          Event.start 1 (SudoRun.startCommand true (ascii "nonce") exampleQuote [ascii "ls"]) none,
          Event.read 1 Std.err ⟨some 110, none⟩, Event.read 1 Std.err ⟨some 111, none⟩,
          Event.read 1 Std.err ⟨some 110, none⟩, Event.read 1 Std.err ⟨some 99, none⟩,
          Event.read 1 Std.err ⟨some 101, none⟩, Event.callback (some e),
          Event.closeStdin 1, Event.closeSession 1]
    ∧ (SudoRun (passwordWorld (ascii "nonce") []) (.error e) (ascii "nonce") exampleQuote
        [ascii "ls"]).1.err = some (GoError.passwordCallbackFailure e) := by
  simp [SudoRun, CheckSudoNeedsPassword, World.NewSession, passwordWorld, freshWorld,
    scriptedSession, Session.Run, World.log, GoError.isExitError, SudoRun.withSession,
    openSessionPipes, Session.StdinPipe, Session.StdoutPipe, Session.StderrPipe, SudoRun.body,
    Session.Start, SudoRun.prompt, ascii_nonce, expectOnly_end, expectOnly_cons, expectOnly_nil,
    RunResult.failed, callPassword, Session.Close, Stdin.Close]

/-- C6 (counterexample): a password callback that fails with the error
`ErrNoReadyFlag` makes the run return `r = PasswordCallbackFailureError{ErrNoReadyFlag}`,
and `errors.Is(r, ErrNoReadyFlag)` holds: `r` is classifiable as the
protocol-expectation failure. -/
theorem callback_failure_classified_as_no_ready_flag :
    Event.callback (some GoError.errNoReadyFlag)
        ∈ (SudoRun (passwordWorld (ascii "nonce") []) (.error GoError.errNoReadyFlag)
            (ascii "nonce") exampleQuote [ascii "ls"]).2.trace
    ∧ (SudoRun (passwordWorld (ascii "nonce") []) (.error GoError.errNoReadyFlag)
          (ascii "nonce") exampleQuote [ascii "ls"]).1.err
        = some (GoError.passwordCallbackFailure GoError.errNoReadyFlag)
    ∧ errorsIs (GoError.passwordCallbackFailure GoError.errNoReadyFlag) GoError.errNoReadyFlag
        = true := by
  refine ⟨?_, (failing_callback_run _).2, by decide⟩
  rw [(failing_callback_run _).1]
  simp

theorem SudoRun_callback_failure_witness :
    (SudoRun (passwordWorld (ascii "nonce") []) (.error (GoError.other 5)) (ascii "nonce")
        exampleQuote [ascii "ls"]).1.err
      = some (GoError.passwordCallbackFailure (GoError.other 5))
    ∧ errorsIs (GoError.passwordCallbackFailure (GoError.other 5)) GoError.errNoReadyFlag = false
    ∧ 1 ∉ (SudoRun (passwordWorld (ascii "nonce") []) (.error (GoError.other 5))
        (ascii "nonce") exampleQuote [ascii "ls"]).2.openSessions := by
  obtain ⟨new, htr, h⟩ := SudoRun_callback_failure (passwordWorld (ascii "nonce") [])
    (.error (GoError.other 5)) (ascii "nonce") exampleQuote [ascii "ls"] (GoError.other 5)
  rw [(failing_callback_run _).1] at htr
  have hnil : (passwordWorld (ascii "nonce") []).trace = [] := rfl
  rw [hnil, List.nil_append] at htr
  have hmem : Event.callback (some (GoError.other 5)) ∈ new := by
    rw [← htr]; simp
  obtain ⟨h1, _, _, _, _, _, _, _, _, _, h2, _, _, h3⟩ := h hmem
  exact ⟨h1, by rw [h2]; decide, h3⟩

/-! ## What a trace tells about the reads -/

theorem readsOf_append (t1 t2 : Trace) (id : Nat) (std : Std) :
    readsOf (t1 ++ t2) id std = readsOf t1 id std ++ readsOf t2 id std := by
  simp [readsOf]

theorem readsOf_cons (ev : Event) (t : Trace) (id : Nat) (std : Std) :
    readsOf (ev :: t) id std = readsOf [ev] id std ++ readsOf t id std :=
  readsOf_append [ev] t id std

theorem readsOf_nil (id : Nat) (std : Std) : readsOf [] id std = [] := rfl

theorem readsOf_readEvents (id : Nat) (std : Std) (xs : List ReadResult) :
    readsOf (readEvents id std xs) id std = xs := by
  induction xs with
  | nil => rfl
  | cons x xs ih =>
      have : readEvents id std (x :: xs) = Event.read id std x :: readEvents id std xs := rfl
      rw [this, readsOf_cons, ih]
      simp [readsOf]

theorem readsOf_readEvents_ne (id id' : Nat) (std std' : Std) (xs : List ReadResult)
    (h : ¬ (id = id' ∧ std = std')) : readsOf (readEvents id std xs) id' std' = [] := by
  induction xs with
  | nil => rfl
  | cons x xs ih =>
      have : readEvents id std (x :: xs) = Event.read id std x :: readEvents id std xs := rfl
      rw [this, readsOf_cons, ih]
      simp [readsOf, h]

theorem readsOf_prompt {needs : Bool} {cb : SudoPasswordCallback} {uuid : GoString} {id : Nat}
    {s : SessionScript} {evs : Trace} {e : Option GoError}
    (hp : PromptPath needs cb uuid id s evs e) (id' : Nat) :
    readsOf evs id' Std.out = [] := by
  have hr : ∀ reads : List ReadResult, readsOf (readEvents id Std.err reads) id' Std.out = [] :=
    fun reads => readsOf_readEvents_ne id id' Std.err Std.out reads (by simp)
  cases hp with
  | skipped => rfl
  | scanFailed => exact hr _
  | noPrompt => exact hr _
  | callbackFailed => rw [readsOf_append, hr]; rfl
  | writeFailed => rw [readsOf_append, hr]; rfl
  | writeShort => rw [readsOf_append, hr]; rfl
  | sent => rw [readsOf_append, hr]; rfl

theorem Diverges.strip_ne {reads : List ReadResult} {E : List Byte} (h : Diverges reads E) :
    strip (bytesOf reads) ≠ E := by
  obtain ⟨P0, b, e, rest, hP, hb, hE, hne⟩ := h
  intro heq
  rw [hP, strip_append, hE] at heq
  have h1 : strip [b] = [b] := by simp [strip, hb]
  rw [h1] at heq
  have := List.append_cancel_left heq
  simp at this
  exact hne this.1

theorem Diverges.reads_ne_nil {reads : List ReadResult} {E : List Byte} (h : Diverges reads E) :
    reads ≠ [] := by
  obtain ⟨P0, b, e, rest, hP, _⟩ := h
  intro hnil
  rw [hnil] at hP
  simp [bytesOf] at hP

theorem FailsWith.reads_nonempty {reads : List ReadResult} {e : GoError} (h : FailsWith reads e) :
    reads ≠ [] := by
  obtain ⟨⟨y, hy, _⟩, _⟩ := h
  intro hnil
  rw [hnil] at hy
  simp at hy

theorem FailsWith.not_errorFree {reads : List ReadResult} {e : GoError} (h : FailsWith reads e) :
    ¬ ErrorFree reads := by
  obtain ⟨⟨y, hy, hye⟩, _⟩ := h
  intro hfree
  have := hfree y hy
  rw [hye] at this
  cases this

theorem FailsWith.eq {reads : List ReadResult} {e e' : GoError} (h : FailsWith reads e)
    (h' : FailsWith reads e') : e' = e := by
  obtain ⟨⟨y, hy, hye⟩, _⟩ := h'
  exact h.2 y hy e' hye

theorem readsOf_newSession (i : Nat) (e : Option GoError) (t : Trace) (id : Nat) (std : Std) :
    readsOf (Event.newSession i e :: t) id std = readsOf t id std := rfl

theorem readsOf_run (i : Nat) (c : GoString) (e : Option GoError) (t : Trace) (id : Nat)
    (std : Std) : readsOf (Event.run i c e :: t) id std = readsOf t id std := rfl

theorem readsOf_stdinPipe (i : Nat) (e : Option GoError) (t : Trace) (id : Nat) (std : Std) :
    readsOf (Event.stdinPipe i e :: t) id std = readsOf t id std := rfl

theorem readsOf_stdoutPipe (i : Nat) (e : Option GoError) (t : Trace) (id : Nat) (std : Std) :
    readsOf (Event.stdoutPipe i e :: t) id std = readsOf t id std := rfl

theorem readsOf_stderrPipe (i : Nat) (e : Option GoError) (t : Trace) (id : Nat) (std : Std) :
    readsOf (Event.stderrPipe i e :: t) id std = readsOf t id std := rfl

theorem readsOf_start (i : Nat) (c : GoString) (e : Option GoError) (t : Trace) (id : Nat)
    (std : Std) : readsOf (Event.start i c e :: t) id std = readsOf t id std := rfl

theorem readsOf_callback (e : Option GoError) (t : Trace) (id : Nat) (std : Std) :
    readsOf (Event.callback e :: t) id std = readsOf t id std := rfl

theorem readsOf_write (i : Nat) (d : GoString) (n : Nat) (e : Option GoError) (t : Trace)
    (id : Nat) (std : Std) : readsOf (Event.write i d n e :: t) id std = readsOf t id std := rfl

theorem readsOf_closeStdin (i : Nat) (t : Trace) (id : Nat) (std : Std) :
    readsOf (Event.closeStdin i :: t) id std = readsOf t id std := rfl

theorem readsOf_closeSession (i : Nat) (t : Trace) (id : Nat) (std : Std) :
    readsOf (Event.closeSession i :: t) id std = readsOf t id std := rfl

theorem errorsIs_ready_wrap (e target : GoError)
    (h : ∀ m c, target ≠ GoError.wrapf m c) :
    errorsIs (GoError.wrapf "error while expecting READY flag: "
        (GoError.wrapf "error while reading: " e)) target = errorsIs e target := by
  rw [errorsIs, errorsIs]
  simp [Ne.symm (h _ _)]

/-! ## Every run, case by case -/

/-- Case analysis of a run by the events it adds: to show `P` of what `SudoRun`
returns and of the events `new` it added to the trace, show it for each of the ways
a run can go. -/
theorem SudoRun_cases (w : World) (cb : SudoPasswordCallback) (uuid : GoString)
    (q : GoString → GoString) (cmd : List GoString) (P : RunResult × World → Trace → Prop)
    (probeNoSession : ∀ e, w.script w.calls = .error e →
      P (RunResult.failed e,
          { w with calls := w.calls + 1,
                   trace := w.trace ++ [Event.newSession w.calls (some e)] })
        [Event.newSession w.calls (some e)])
    (probeFailed : ∀ p e, w.script w.calls = .ok p → probeAnswer p.runResult = .error e →
      P (RunResult.failed e, w.probed p) (probeEvents w p.runResult))
    (noSession : ∀ p needs e, w.script w.calls = .ok p → probeAnswer p.runResult = .ok needs →
      P (RunResult.failed (GoError.wrapf "could not start an ssh session " e),
          { w.probed p with
            calls := w.calls + 1 + 1,
            trace := (w.probed p).trace ++ [Event.newSession (w.calls + 1) (some e)] })
        (probeEvents w p.runResult ++ [Event.newSession (w.calls + 1) (some e)]))
    (stdinPipeFailed : ∀ p needs e, w.script w.calls = .ok p →
      probeAnswer p.runResult = .ok needs →
      P (RunResult.failed e,
          (w.probed p).afterRun false false
            [Event.newSession (w.calls + 1) none, Event.stdinPipe (w.calls + 1) (some e),
              Event.closeSession (w.calls + 1)])
        (probeEvents w p.runResult
          ++ [Event.newSession (w.calls + 1) none, Event.stdinPipe (w.calls + 1) (some e),
              Event.closeSession (w.calls + 1)]))
    (stdoutPipeFailed : ∀ p needs e, w.script w.calls = .ok p →
      probeAnswer p.runResult = .ok needs →
      P (RunResult.failed e,
          (w.probed p).afterRun false true
            ([Event.newSession (w.calls + 1) none, Event.stdinPipe (w.calls + 1) none,
              Event.stdoutPipe (w.calls + 1) (some e)] ++ closeEvents (w.calls + 1)))
        (probeEvents w p.runResult
          ++ ([Event.newSession (w.calls + 1) none, Event.stdinPipe (w.calls + 1) none,
              Event.stdoutPipe (w.calls + 1) (some e)] ++ closeEvents (w.calls + 1))))
    (stderrPipeFailed : ∀ p needs e, w.script w.calls = .ok p →
      probeAnswer p.runResult = .ok needs →
      P (RunResult.failed e,
          (w.probed p).afterRun false true
            ([Event.newSession (w.calls + 1) none, Event.stdinPipe (w.calls + 1) none,
              Event.stdoutPipe (w.calls + 1) none, Event.stderrPipe (w.calls + 1) (some e)]
              ++ closeEvents (w.calls + 1)))
        (probeEvents w p.runResult
          ++ ([Event.newSession (w.calls + 1) none, Event.stdinPipe (w.calls + 1) none,
              Event.stdoutPipe (w.calls + 1) none, Event.stderrPipe (w.calls + 1) (some e)]
              ++ closeEvents (w.calls + 1))))
    (startFailed : ∀ p needs e, w.script w.calls = .ok p → probeAnswer p.runResult = .ok needs →
      P (RunResult.failed (GoError.wrapf "failed to start session: " e),
          (w.probed p).afterRun false true
            ([Event.newSession (w.calls + 1) none, Event.stdinPipe (w.calls + 1) none,
              Event.stdoutPipe (w.calls + 1) none, Event.stderrPipe (w.calls + 1) none,
              Event.start (w.calls + 1) (SudoRun.startCommand needs uuid q cmd) (some e)]
              ++ closeEvents (w.calls + 1)))
        (probeEvents w p.runResult
          ++ ([Event.newSession (w.calls + 1) none, Event.stdinPipe (w.calls + 1) none,
              Event.stdoutPipe (w.calls + 1) none, Event.stderrPipe (w.calls + 1) none,
              Event.start (w.calls + 1) (SudoRun.startCommand needs uuid q cmd) (some e)]
              ++ closeEvents (w.calls + 1))))
    (promptFailed : ∀ p s needs evs e, w.script w.calls = .ok p →
      probeAnswer p.runResult = .ok needs →
      PromptPath needs cb uuid (w.calls + 1) s evs (some e) →
      P (RunResult.failed e,
          (w.probed p).afterRun false true
            (startedEvents needs uuid q cmd (w.calls + 1) ++ evs ++ closeEvents (w.calls + 1)))
        (probeEvents w p.runResult
          ++ (startedEvents needs uuid q cmd (w.calls + 1) ++ evs
            ++ closeEvents (w.calls + 1))))
    (readyFailed : ∀ p s needs evs reads e, w.script w.calls = .ok p →
      probeAnswer p.runResult = .ok needs →
      PromptPath needs cb uuid (w.calls + 1) s evs none → FailsWith reads e →
      P (RunResult.failed (GoError.wrapf "error while expecting READY flag: "
            (GoError.wrapf "error while reading: " e)),
          (w.probed p).afterRun false true
            (startedEvents needs uuid q cmd (w.calls + 1) ++ evs
              ++ readEvents (w.calls + 1) Std.out reads ++ closeEvents (w.calls + 1)))
        (probeEvents w p.runResult
          ++ (startedEvents needs uuid q cmd (w.calls + 1) ++ evs
            ++ readEvents (w.calls + 1) Std.out reads ++ closeEvents (w.calls + 1))))
    (noReady : ∀ p s needs evs reads, w.script w.calls = .ok p →
      probeAnswer p.runResult = .ok needs →
      PromptPath needs cb uuid (w.calls + 1) s evs none → ErrorFree reads →
      Diverges reads (ascii "READY\n") →
      P (RunResult.failed GoError.errNoReadyFlag,
          (w.probed p).afterRun false true
            (startedEvents needs uuid q cmd (w.calls + 1) ++ evs
              ++ readEvents (w.calls + 1) Std.out reads ++ closeEvents (w.calls + 1)))
        (probeEvents w p.runResult
          ++ (startedEvents needs uuid q cmd (w.calls + 1) ++ evs
            ++ readEvents (w.calls + 1) Std.out reads ++ closeEvents (w.calls + 1))))
    (ready : ∀ p s needs evs reads stdout stderr, w.script w.calls = .ok p →
      probeAnswer p.runResult = .ok needs →
      PromptPath needs cb uuid (w.calls + 1) s evs none → ErrorFree reads →
      strip (bytesOf reads) = ascii "READY\n" →
      P (⟨some ⟨w.calls + 1, s.write⟩, some stdout, some stderr, some ⟨w.calls + 1, s⟩, none⟩,
          (w.probed p).afterRun true true
            (startedEvents needs uuid q cmd (w.calls + 1) ++ evs
              ++ readEvents (w.calls + 1) Std.out reads))
        (probeEvents w p.runResult
          ++ (startedEvents needs uuid q cmd (w.calls + 1) ++ evs
            ++ readEvents (w.calls + 1) Std.out reads))) :
    ∃ new, (SudoRun w cb uuid q cmd).2.trace = w.trace ++ new
      ∧ P (SudoRun w cb uuid q cmd) new := by
  refine SudoRun_elim w cb uuid q cmd
    (fun out => ∃ new, out.2.trace = w.trace ++ new ∧ P out new) ?_ ?_ ?_
  · intro e h
    exact ⟨_, rfl, probeNoSession e h⟩
  · intro p e h ha
    exact ⟨_, rfl, probeFailed p e h ha⟩
  · intro p needs out hs ha hpath
    have hc : (w.probed p).calls = w.calls + 1 := rfl
    have htr : ∀ k pi evs, ((w.probed p).afterRun k pi evs).trace
        = w.trace ++ (probeEvents w p.runResult ++ evs) := by
      intro k pi evs
      simp [World.afterRun, World.probed, probeEvents]
    cases hpath with
    | noSession e h =>
        exact ⟨_, by simp [World.probed, probeEvents], noSession p needs e hs ha⟩
    | stdinPipeFailed s h e he =>
        exact ⟨_, htr _ _ _, stdinPipeFailed p needs e hs ha⟩
    | stdoutPipeFailed s h h0 e he =>
        exact ⟨_, htr _ _ _, stdoutPipeFailed p needs e hs ha⟩
    | stderrPipeFailed s h h0 h1 e he =>
        exact ⟨_, htr _ _ _, stderrPipeFailed p needs e hs ha⟩
    | startFailed s h h0 h1 h2 e he =>
        exact ⟨_, htr _ _ _, startFailed p needs e hs ha⟩
    | promptFailed s h h0 h1 h2 h3 evs e hp =>
        exact ⟨_, htr _ _ _, promptFailed p s needs evs e hs ha hp⟩
    | readyFailed s h h0 h1 h2 h3 evs hp reads e hf =>
        exact ⟨_, htr _ _ _, readyFailed p s needs evs reads e hs ha hp hf⟩
    | noReady s h h0 h1 h2 h3 evs hp reads hfree hd =>
        exact ⟨_, htr _ _ _, noReady p s needs evs reads hs ha hp hfree hd⟩
    | ready s h h0 h1 h2 h3 evs hp reads hfree hm so se =>
        exact ⟨_, htr _ _ _, ready p s needs evs reads so se hs ha hp hfree hm⟩

theorem Diverges.nil_impossible (E : List Byte) : ¬ Diverges [] E := fun h => h.reads_ne_nil rfl

theorem FailsWith.nil_absurd (e : GoError) : ¬ FailsWith [] e := fun h => h.reads_nonempty rfl

/-! ## The readiness marker -/

/-- C3 (as implemented): let `R` be the reads of the output stream that a run made.  If
they are free of errors and break off the match of `READY\n` (a byte that is no
carriage return differs from the expected one), the run returns `ErrNoReadyFlag`.
If one of them failed with the error `e` (`io.EOF` when the stream ended before the
marker was complete), the run returns the error `error while expecting READY flag: `
around `error while reading: ` around `e`, which `errors.Is` classifies as
`ErrNoReadyFlag` only if it so classifies `e`.  In both cases the command had been
started, all four handles are nil, and the input stream and the session of the run
have been closed. -/
theorem SudoRun_no_ready (w : World) (cb : SudoPasswordCallback) (uuid : GoString)
    (q : GoString → GoString) (cmd : List GoString) :
    ∃ new, (SudoRun w cb uuid q cmd).2.trace = w.trace ++ new
      ∧ ((ErrorFree (readsOf new (w.calls + 1) Std.out) →
          Diverges (readsOf new (w.calls + 1) Std.out) (ascii "READY\n") →
            (SudoRun w cb uuid q cmd).1.err = some GoError.errNoReadyFlag
            ∧ errorsIs GoError.errNoReadyFlag GoError.errNoReadyFlag = true)
        ∧ (∀ e, FailsWith (readsOf new (w.calls + 1) Std.out) e →
            (SudoRun w cb uuid q cmd).1.err
              = some (GoError.wrapf "error while expecting READY flag: "
                  (GoError.wrapf "error while reading: " e))
            ∧ errorsIs (GoError.wrapf "error while expecting READY flag: "
                  (GoError.wrapf "error while reading: " e)) GoError.errNoReadyFlag
                = errorsIs e GoError.errNoReadyFlag)
        ∧ (readsOf new (w.calls + 1) Std.out ≠ [] → (SudoRun w cb uuid q cmd).1.err ≠ none →
            (∃ c, Event.start (w.calls + 1) c none ∈ new)
            ∧ (SudoRun w cb uuid q cmd).1.stdin.isNone ∧ (SudoRun w cb uuid q cmd).1.stdout.isNone
            ∧ (SudoRun w cb uuid q cmd).1.stderr.isNone
            ∧ (SudoRun w cb uuid q cmd).1.session.isNone
            ∧ Event.closeStdin (w.calls + 1) ∈ new ∧ Event.closeSession (w.calls + 1) ∈ new
            ∧ (w.calls + 1) ∉ (SudoRun w cb uuid q cmd).2.openStdin
            ∧ (w.calls + 1) ∉ (SudoRun w cb uuid q cmd).2.openSessions)) := by
  have hw : ∀ e, errorsIs (GoError.wrapf "error while expecting READY flag: "
      (GoError.wrapf "error while reading: " e)) GoError.errNoReadyFlag
        = errorsIs e GoError.errNoReadyFlag :=
    fun e => errorsIs_ready_wrap e _ (by simp)
  refine SudoRun_cases w cb uuid q cmd
    (fun out new =>
      (ErrorFree (readsOf new (w.calls + 1) Std.out) →
          Diverges (readsOf new (w.calls + 1) Std.out) (ascii "READY\n") →
            out.1.err = some GoError.errNoReadyFlag
            ∧ errorsIs GoError.errNoReadyFlag GoError.errNoReadyFlag = true)
        ∧ (∀ e, FailsWith (readsOf new (w.calls + 1) Std.out) e →
            out.1.err
              = some (GoError.wrapf "error while expecting READY flag: "
                  (GoError.wrapf "error while reading: " e))
            ∧ errorsIs (GoError.wrapf "error while expecting READY flag: "
                  (GoError.wrapf "error while reading: " e)) GoError.errNoReadyFlag
                = errorsIs e GoError.errNoReadyFlag)
        ∧ (readsOf new (w.calls + 1) Std.out ≠ [] → out.1.err ≠ none →
            (∃ c, Event.start (w.calls + 1) c none ∈ new)
            ∧ out.1.stdin.isNone ∧ out.1.stdout.isNone
            ∧ out.1.stderr.isNone ∧ out.1.session.isNone
            ∧ Event.closeStdin (w.calls + 1) ∈ new ∧ Event.closeSession (w.calls + 1) ∈ new
            ∧ (w.calls + 1) ∉ out.2.openStdin
            ∧ (w.calls + 1) ∉ out.2.openSessions))
    ?_ ?_ ?_ ?_ ?_ ?_ ?_ ?_ ?_ ?_ ?_
  · intro e _
    simp [readsOf_newSession, readsOf_nil, Diverges.nil_impossible, FailsWith.nil_absurd]
  · intro p e _ _
    simp [probeEvents, readsOf_newSession, readsOf_run, readsOf_nil, Diverges.nil_impossible,
      FailsWith.nil_absurd]
  · intro p needs e _ _
    simp [probeEvents, readsOf_newSession, readsOf_run, readsOf_nil, Diverges.nil_impossible,
      FailsWith.nil_absurd, readsOf_append]
  · intro p needs e _ _
    simp [probeEvents, readsOf_newSession, readsOf_run, readsOf_nil, Diverges.nil_impossible,
      FailsWith.nil_absurd, readsOf_append, readsOf_stdinPipe, readsOf_closeSession]
  · intro p needs e _ _
    simp [probeEvents, readsOf_newSession, readsOf_run, readsOf_nil, Diverges.nil_impossible,
      FailsWith.nil_absurd, readsOf_append, readsOf_stdinPipe, readsOf_stdoutPipe,
      readsOf_closeSession, readsOf_closeStdin, closeEvents]
  · intro p needs e _ _
    simp [probeEvents, readsOf_newSession, readsOf_run, readsOf_nil, Diverges.nil_impossible,
      FailsWith.nil_absurd, readsOf_append, readsOf_stdinPipe, readsOf_stdoutPipe,
      readsOf_stderrPipe, readsOf_closeSession, readsOf_closeStdin, closeEvents]
  · intro p needs e _ _
    simp [probeEvents, readsOf_newSession, readsOf_run, readsOf_nil, Diverges.nil_impossible,
      FailsWith.nil_absurd, readsOf_append, readsOf_stdinPipe, readsOf_stdoutPipe,
      readsOf_stderrPipe, readsOf_start, readsOf_closeSession, readsOf_closeStdin, closeEvents]
  · intro p s needs evs e _ _ hp
    simp [probeEvents, readsOf_newSession, readsOf_run, readsOf_nil, Diverges.nil_impossible,
      FailsWith.nil_absurd, readsOf_append, readsOf_stdinPipe, readsOf_stdoutPipe,
      readsOf_stderrPipe, readsOf_start, readsOf_closeSession, readsOf_closeStdin, closeEvents,
      startedEvents, readsOf_prompt hp]
  · intro p s needs evs reads e _ _ hp hf
    have hR : readsOf (probeEvents w p.runResult
        ++ (startedEvents needs uuid q cmd (w.calls + 1) ++ evs
          ++ readEvents (w.calls + 1) Std.out reads ++ closeEvents (w.calls + 1)))
        (w.calls + 1) Std.out = reads := by
      simp [probeEvents, readsOf_newSession, readsOf_run, readsOf_nil, readsOf_append,
        readsOf_stdinPipe, readsOf_stdoutPipe, readsOf_stderrPipe, readsOf_start,
        readsOf_closeSession, readsOf_closeStdin, closeEvents, startedEvents, readsOf_prompt hp,
        readsOf_readEvents]
    rw [hR]
    refine ⟨fun hfree => absurd hfree hf.not_errorFree, ?_, ?_⟩
    · intro e' hf'
      have := hf.eq hf'
      subst this
      exact ⟨rfl, hw _⟩
    · intro _ _
      refine ⟨⟨SudoRun.startCommand needs uuid q cmd, ?_⟩, rfl, rfl, rfl, rfl, ?_, ?_, ?_, ?_⟩ <;>
        simp [startedEvents, closeEvents, World.afterRun, World.probed]
  · intro p s needs evs reads _ _ hp hfree hd
    have hR : readsOf (probeEvents w p.runResult
        ++ (startedEvents needs uuid q cmd (w.calls + 1) ++ evs
          ++ readEvents (w.calls + 1) Std.out reads ++ closeEvents (w.calls + 1)))
        (w.calls + 1) Std.out = reads := by
      simp [probeEvents, readsOf_newSession, readsOf_run, readsOf_nil, readsOf_append,
        readsOf_stdinPipe, readsOf_stdoutPipe, readsOf_stderrPipe, readsOf_start,
        readsOf_closeSession, readsOf_closeStdin, closeEvents, startedEvents, readsOf_prompt hp,
        readsOf_readEvents]
    rw [hR]
    refine ⟨fun _ _ => ⟨rfl, by decide⟩, fun e hf => absurd hfree hf.not_errorFree, ?_⟩
    intro _ _
    refine ⟨⟨SudoRun.startCommand needs uuid q cmd, ?_⟩, rfl, rfl, rfl, rfl, ?_, ?_, ?_, ?_⟩ <;>
      simp [startedEvents, closeEvents, World.afterRun, World.probed]
  · intro p s needs evs reads so se _ _ hp hfree hm
    have hR : readsOf (probeEvents w p.runResult
        ++ (startedEvents needs uuid q cmd (w.calls + 1) ++ evs
          ++ readEvents (w.calls + 1) Std.out reads))
        (w.calls + 1) Std.out = reads := by
      simp [probeEvents, readsOf_newSession, readsOf_run, readsOf_nil, readsOf_append,
        readsOf_stdinPipe, readsOf_stdoutPipe, readsOf_stderrPipe, readsOf_start,
        startedEvents, readsOf_prompt hp, readsOf_readEvents]
    rw [hR]
    exact ⟨fun _ hd => absurd hm hd.strip_ne, fun e hf => absurd hfree hf.not_errorFree,
      fun _ h => absurd rfl h⟩

theorem silent_run :
    (SudoRun (passwordlessWorld []) (SudoStaticPasswordCallback (ascii "pw")) (ascii "nonce")
        exampleQuote [ascii "ls"]).2.trace
      = [Event.newSession 0 none, Event.run 0 (ascii "sudo -n -v") none,
          Event.newSession 1 none, Event.stdinPipe 1 none, Event.stdoutPipe 1 none,
          Event.stderrPipe 1 none,
          Event.start 1 (SudoRun.startCommand false (ascii "nonce") exampleQuote [ascii "ls"]) none,
          Event.read 1 Std.out ⟨none, some GoError.eof⟩,
          Event.closeStdin 1, Event.closeSession 1]
    ∧ (SudoRun (passwordlessWorld []) (SudoStaticPasswordCallback (ascii "pw")) (ascii "nonce")
        exampleQuote [ascii "ls"]).1.err
      = some (GoError.wrapf "error while expecting READY flag: "
          (GoError.wrapf "error while reading: " GoError.eof)) := by
  simp [SudoRun, CheckSudoNeedsPassword, World.NewSession, passwordlessWorld, freshWorld,
    scriptedSession, Session.Run, World.log, GoError.isExitError, SudoRun.withSession,
    openSessionPipes, Session.StdinPipe, Session.StdoutPipe, Session.StderrPipe, SudoRun.body,
    Session.Start, SudoRun.prompt, ascii_ready, expectOnly_end, expectOnly_cons, expectOnly_nil,
    RunResult.failed, Session.Close, Stdin.Close]

theorem banner_run :
    (SudoRun (passwordlessWorld [82, 13, 88, 89]) (SudoStaticPasswordCallback (ascii "pw"))
        (ascii "nonce") exampleQuote [ascii "ls"]).2.trace
      = [Event.newSession 0 none, Event.run 0 (ascii "sudo -n -v") none,
          Event.newSession 1 none, Event.stdinPipe 1 none, Event.stdoutPipe 1 none,
          Event.stderrPipe 1 none,
          Event.start 1 (SudoRun.startCommand false (ascii "nonce") exampleQuote [ascii "ls"]) none,
          Event.read 1 Std.out ⟨some 82, none⟩, Event.read 1 Std.out ⟨some 13, none⟩,
          Event.read 1 Std.out ⟨some 88, none⟩,
          Event.closeStdin 1, Event.closeSession 1] := by
  simp [SudoRun, CheckSudoNeedsPassword, World.NewSession, passwordlessWorld, freshWorld,
    scriptedSession, Session.Run, World.log, GoError.isExitError, SudoRun.withSession,
    openSessionPipes, Session.StdinPipe, Session.StdoutPipe, Session.StderrPipe, SudoRun.body,
    Session.Start, SudoRun.prompt, ascii_ready, expectOnly_end, expectOnly_cons, expectOnly_nil,
    RunResult.failed, Session.Close, Stdin.Close]

/-- C3 (counterexample): no password is needed, the command is started, and the
remote process exits at once, so that the output stream ends before any byte of the
marker: the first read returns `io.EOF`.  The run returns `error while expecting
READY flag: ` around `error while reading: ` around `io.EOF`; this is not
`ErrNoReadyFlag`, and `errors.Is(err, ErrNoReadyFlag)` is false. -/
theorem ended_stream_is_not_no_ready_flag :
    Event.start 1 (SudoRun.startCommand false (ascii "nonce") exampleQuote [ascii "ls"]) none
        ∈ (SudoRun (passwordlessWorld []) (SudoStaticPasswordCallback (ascii "pw"))
            (ascii "nonce") exampleQuote [ascii "ls"]).2.trace
    ∧ readsOf (SudoRun (passwordlessWorld []) (SudoStaticPasswordCallback (ascii "pw"))
          (ascii "nonce") exampleQuote [ascii "ls"]).2.trace 1 Std.out
        = [⟨none, some GoError.eof⟩]
    ∧ (SudoRun (passwordlessWorld []) (SudoStaticPasswordCallback (ascii "pw")) (ascii "nonce")
          exampleQuote [ascii "ls"]).1.err
        = some (GoError.wrapf "error while expecting READY flag: "
            (GoError.wrapf "error while reading: " GoError.eof))
    ∧ GoError.wrapf "error while expecting READY flag: "
          (GoError.wrapf "error while reading: " GoError.eof) ≠ GoError.errNoReadyFlag
    ∧ errorsIs (GoError.wrapf "error while expecting READY flag: "
          (GoError.wrapf "error while reading: " GoError.eof)) GoError.errNoReadyFlag
        = false := by
  rw [silent_run.1]
  exact ⟨by simp, rfl, silent_run.2, by simp, by decide⟩

theorem SudoRun_no_ready_witness :
    (ErrorFree [⟨some 82, none⟩, ⟨some 13, none⟩, ⟨some 88, none⟩]
      ∧ Diverges [⟨some 82, none⟩, ⟨some 13, none⟩, ⟨some 88, none⟩] (ascii "READY\n"))
    ∧ (SudoRun (passwordlessWorld [82, 13, 88, 89]) (SudoStaticPasswordCallback (ascii "pw"))
          (ascii "nonce") exampleQuote [ascii "ls"]).1.err = some GoError.errNoReadyFlag
    ∧ errorsIs GoError.errNoReadyFlag GoError.errNoReadyFlag = true := by
  have hfree : ErrorFree [⟨some 82, none⟩, ⟨some 13, none⟩, ⟨some 88, none⟩] := by
    intro x hx
    simp at hx
    rcases hx with rfl | rfl | rfl <;> rfl
  have hd : Diverges [⟨some 82, none⟩, ⟨some 13, none⟩, ⟨some 88, none⟩] (ascii "READY\n") :=
    ⟨[82, 13], 88, 69, [65, 68, 89, 10], by decide, by decide, by decide, by decide⟩
  obtain ⟨new, htr, h, _, _⟩ := SudoRun_no_ready (passwordlessWorld [82, 13, 88, 89])
    (SudoStaticPasswordCallback (ascii "pw")) (ascii "nonce") exampleQuote [ascii "ls"]
  rw [banner_run] at htr
  have hnil : (passwordlessWorld [82, 13, 88, 89]).trace = [] := rfl
  rw [hnil, List.nil_append] at htr
  subst htr
  exact ⟨⟨hfree, hd⟩, h hfree hd⟩

/-! ## The handshake invariant -/

/-- C4: a run returns a nil error only together with four non-nil handles and only
if the reads it made of the output stream were free of errors and the bytes they
consumed, carriage returns removed, are exactly `READY\n`.  A run that returns an
error returns four nil handles, and if it had opened its session (number
`w.calls + 1`) it has closed it, and has closed the input stream if it had acquired
it. -/
theorem SudoRun_handshake_invariant (w : World) (cb : SudoPasswordCallback) (uuid : GoString)
    (q : GoString → GoString) (cmd : List GoString) :
    ∃ new, (SudoRun w cb uuid q cmd).2.trace = w.trace ++ new
      ∧ ((SudoRun w cb uuid q cmd).1.err = none →
          (SudoRun w cb uuid q cmd).1.stdin.isSome ∧ (SudoRun w cb uuid q cmd).1.stdout.isSome
          ∧ (SudoRun w cb uuid q cmd).1.stderr.isSome ∧ (SudoRun w cb uuid q cmd).1.session.isSome
          ∧ ErrorFree (readsOf new (w.calls + 1) Std.out)
          ∧ strip (consumed new (w.calls + 1) Std.out) = ascii "READY\n")
      ∧ ((SudoRun w cb uuid q cmd).1.err ≠ none →
          (SudoRun w cb uuid q cmd).1.stdin.isNone ∧ (SudoRun w cb uuid q cmd).1.stdout.isNone
          ∧ (SudoRun w cb uuid q cmd).1.stderr.isNone ∧ (SudoRun w cb uuid q cmd).1.session.isNone
          ∧ (Event.newSession (w.calls + 1) none ∈ new →
              Event.closeSession (w.calls + 1) ∈ new
              ∧ (w.calls + 1) ∉ (SudoRun w cb uuid q cmd).2.openSessions
              ∧ (Event.stdinPipe (w.calls + 1) none ∈ new →
                  Event.closeStdin (w.calls + 1) ∈ new
                  ∧ (w.calls + 1) ∉ (SudoRun w cb uuid q cmd).2.openStdin))) := by
  refine SudoRun_cases w cb uuid q cmd
    (fun out new =>
      (out.1.err = none →
          out.1.stdin.isSome ∧ out.1.stdout.isSome
          ∧ out.1.stderr.isSome ∧ out.1.session.isSome
          ∧ ErrorFree (readsOf new (w.calls + 1) Std.out)
          ∧ strip (consumed new (w.calls + 1) Std.out) = ascii "READY\n")
      ∧ (out.1.err ≠ none →
          out.1.stdin.isNone ∧ out.1.stdout.isNone
          ∧ out.1.stderr.isNone ∧ out.1.session.isNone
          ∧ (Event.newSession (w.calls + 1) none ∈ new →
              Event.closeSession (w.calls + 1) ∈ new
              ∧ (w.calls + 1) ∉ out.2.openSessions
              ∧ (Event.stdinPipe (w.calls + 1) none ∈ new →
                  Event.closeStdin (w.calls + 1) ∈ new
                  ∧ (w.calls + 1) ∉ out.2.openStdin))))
    ?_ ?_ ?_ ?_ ?_ ?_ ?_ ?_ ?_ ?_ ?_
  · intro e _
    simp [RunResult.failed]
  · intro p e _ _
    simp [RunResult.failed, probeEvents]
  · intro p needs e _ _
    simp [RunResult.failed, probeEvents]
  · intro p needs e _ _
    simp [RunResult.failed, probeEvents, World.afterRun, World.probed]
  · intro p needs e _ _
    simp [RunResult.failed, probeEvents, World.afterRun, World.probed, closeEvents]
  · intro p needs e _ _
    simp [RunResult.failed, probeEvents, World.afterRun, World.probed, closeEvents]
  · intro p needs e _ _
    simp [RunResult.failed, probeEvents, World.afterRun, World.probed, closeEvents]
  · intro p s needs evs e _ _ hp
    simp [RunResult.failed, probeEvents, World.afterRun, World.probed, closeEvents,
      startedEvents]
  · intro p s needs evs reads e _ _ hp hf
    simp [RunResult.failed, probeEvents, World.afterRun, World.probed, closeEvents,
      startedEvents]
  · intro p s needs evs reads _ _ hp hfree hd
    simp [RunResult.failed, probeEvents, World.afterRun, World.probed, closeEvents,
      startedEvents]
  · intro p s needs evs reads so se _ _ hp hfree hm
    have hR : readsOf (probeEvents w p.runResult
        ++ (startedEvents needs uuid q cmd (w.calls + 1) ++ evs
          ++ readEvents (w.calls + 1) Std.out reads))
        (w.calls + 1) Std.out = reads := by
      simp [probeEvents, readsOf_newSession, readsOf_run, readsOf_nil, readsOf_append,
        readsOf_stdinPipe, readsOf_stdoutPipe, readsOf_stderrPipe, readsOf_start,
        startedEvents, readsOf_prompt hp, readsOf_readEvents]
    simp only [consumed]
    rw [hR]
    exact ⟨fun _ => ⟨rfl, rfl, rfl, rfl, hfree, hm⟩, fun h => absurd rfl h⟩

theorem passwordless_ls_ok :
    (SudoRun (passwordlessWorld (ascii "READY\n")) (SudoStaticPasswordCallback (ascii "pw"))
        (ascii "nonce") exampleQuote [ascii "ls", ascii "-l"]).1.err = none := by
  simp [SudoRun, CheckSudoNeedsPassword, World.NewSession, passwordlessWorld, freshWorld,
    scriptedSession, Session.Run, World.log, GoError.isExitError, SudoRun.withSession,
    openSessionPipes, Session.StdinPipe, Session.StdoutPipe, Session.StderrPipe, SudoRun.body,
    Session.Start, SudoRun.prompt, ascii_ready, expectOnly_end, expectOnly_cons, expectOnly_nil,
    RunResult.failed]

theorem banner_run_err :
    (SudoRun (passwordlessWorld [82, 13, 88, 89]) (SudoStaticPasswordCallback (ascii "pw"))
        (ascii "nonce") exampleQuote [ascii "ls"]).1.err = some GoError.errNoReadyFlag := by
  simp [SudoRun, CheckSudoNeedsPassword, World.NewSession, passwordlessWorld, freshWorld,
    scriptedSession, Session.Run, World.log, GoError.isExitError, SudoRun.withSession,
    openSessionPipes, Session.StdinPipe, Session.StdoutPipe, Session.StderrPipe, SudoRun.body,
    Session.Start, SudoRun.prompt, ascii_ready, expectOnly_end, expectOnly_cons, expectOnly_nil,
    RunResult.failed, Session.Close, Stdin.Close]

theorem SudoRun_handshake_invariant_witness :
    ((SudoRun (passwordlessWorld (ascii "READY\n")) (SudoStaticPasswordCallback (ascii "pw"))
          (ascii "nonce") exampleQuote [ascii "ls", ascii "-l"]).1.err = none
      ∧ (SudoRun (passwordlessWorld (ascii "READY\n")) (SudoStaticPasswordCallback (ascii "pw"))
          (ascii "nonce") exampleQuote [ascii "ls", ascii "-l"]).1.session.isSome
      ∧ strip (consumed
          (SudoRun (passwordlessWorld (ascii "READY\n")) (SudoStaticPasswordCallback (ascii "pw"))
            (ascii "nonce") exampleQuote [ascii "ls", ascii "-l"]).2.trace 1 Std.out)
          = ascii "READY\n")
    ∧ ((SudoRun (passwordlessWorld [82, 13, 88, 89]) (SudoStaticPasswordCallback (ascii "pw"))
          (ascii "nonce") exampleQuote [ascii "ls"]).1.err ≠ none
      ∧ (SudoRun (passwordlessWorld [82, 13, 88, 89]) (SudoStaticPasswordCallback (ascii "pw"))
          (ascii "nonce") exampleQuote [ascii "ls"]).1.session.isNone
      ∧ 1 ∉ (SudoRun (passwordlessWorld [82, 13, 88, 89])
          (SudoStaticPasswordCallback (ascii "pw")) (ascii "nonce") exampleQuote
          [ascii "ls"]).2.openSessions
      ∧ 1 ∉ (SudoRun (passwordlessWorld [82, 13, 88, 89])
          (SudoStaticPasswordCallback (ascii "pw")) (ascii "nonce") exampleQuote
          [ascii "ls"]).2.openStdin) := by
  constructor
  · obtain ⟨new, htr, h, _⟩ := SudoRun_handshake_invariant (passwordlessWorld (ascii "READY\n"))
      (SudoStaticPasswordCallback (ascii "pw")) (ascii "nonce") exampleQuote
      [ascii "ls", ascii "-l"]
    have hnil : (passwordlessWorld (ascii "READY\n")).trace = [] := rfl
    rw [hnil, List.nil_append] at htr
    obtain ⟨_, _, _, h4, _, h6⟩ := h passwordless_ls_ok
    rw [htr]
    exact ⟨passwordless_ls_ok, h4, h6⟩
  · obtain ⟨new, htr, _, h⟩ := SudoRun_handshake_invariant (passwordlessWorld [82, 13, 88, 89])
      (SudoStaticPasswordCallback (ascii "pw")) (ascii "nonce") exampleQuote [ascii "ls"]
    have hne : (SudoRun (passwordlessWorld [82, 13, 88, 89])
        (SudoStaticPasswordCallback (ascii "pw")) (ascii "nonce") exampleQuote
        [ascii "ls"]).1.err ≠ none := by
      rw [banner_run_err]; simp
    rw [banner_run] at htr
    have hnil : (passwordlessWorld [82, 13, 88, 89]).trace = [] := rfl
    rw [hnil, List.nil_append] at htr
    subst htr
    obtain ⟨_, _, _, h4, h5⟩ := h hne
    obtain ⟨_, h6, h7⟩ := h5 (by simp [passwordlessWorld, freshWorld])
    exact ⟨hne, h4, h6, (h7 (by simp [passwordlessWorld, freshWorld])).2⟩

/-! ## The calls of the password callback -/

theorem callbacks_append (t1 t2 : Trace) : callbacks (t1 ++ t2) = callbacks t1 + callbacks t2 := by
  simp [callbacks]

theorem callbacks_readEvents (id : Nat) (std : Std) (xs : List ReadResult) :
    callbacks (readEvents id std xs) = 0 := by
  simp [callbacks, readEvents, List.countP_eq_zero, Event.isCallback]

theorem callbacks_eq_zero {t : Trace} (h : callbacks t = 0) (e : Option GoError) :
    Event.callback e ∉ t := by
  intro hmem
  have := (List.countP_eq_zero.mp h) _ hmem
  simp [Event.isCallback] at this

/-- A trace with no call of the callback before or after the one shown splits at
that call in one way only. -/
theorem split_at_callback (X Y : Trace) (e' : Option GoError) (hX : callbacks X = 0)
    (hY : callbacks Y = 0) :
    ∀ (pre post : Trace) (e : Option GoError),
      X ++ Event.callback e' :: Y = pre ++ Event.callback e :: post → pre = X ∧ post = Y := by
  induction X with
  | nil =>
      intro pre post e h
      cases pre with
      | nil =>
          simp at h
          exact ⟨rfl, h.2.symm⟩
      | cons a pre =>
          simp at h
          have hmem : Event.callback e ∈ Y := by rw [h.2]; simp
          exact absurd hmem (callbacks_eq_zero hY e)
  | cons x X ih =>
      intro pre post e h
      have hx : x.isCallback = false ∧ callbacks X = 0 := by
        have h1 := hX
        simp only [callbacks, List.countP_cons] at h1
        cases hxc : x.isCallback with
        | true => simp [hxc] at h1
        | false => simpa [hxc, callbacks] using h1
      cases pre with
      | nil =>
          simp at h
          rw [h.1] at hx
          simp [Event.isCallback] at hx
      | cons a pre =>
          simp at h
          obtain ⟨h1, h2⟩ := ih hx.2 pre post e h.2
          exact ⟨by rw [h.1, h1], h2⟩

theorem callback_discipline_none (ans : Except GoError Bool) (new : Trace) (id : Nat)
    (uuid : GoString) (h0 : callbacks new = 0)
    (hM : ans = .ok true → ¬ PromptMatched new id uuid) :
    callbacks new ≤ 1
      ∧ (ans = .ok false → callbacks new = 0)
      ∧ (ans = .ok true → (callbacks new = 1 ↔ PromptMatched new id uuid))
      ∧ (∀ pre e post, new = pre ++ Event.callback e :: post →
          PromptMatched pre id uuid ∧ ∀ i res, Event.read i Std.out res ∉ pre) := by
  refine ⟨by omega, fun _ => h0, fun ha => ⟨fun h => by omega, fun h => absurd h (hM ha)⟩, ?_⟩
  intro pre e post hnew
  have : Event.callback e ∈ new := by rw [hnew]; simp
  exact absurd this (callbacks_eq_zero h0 e)

theorem callback_discipline_one (ans : Except GoError Bool) (new X Y : Trace) (id : Nat)
    (uuid : GoString) (e' : Option GoError) (hnew : new = X ++ Event.callback e' :: Y)
    (hX : callbacks X = 0) (hY : callbacks Y = 0) (hans : ans = .ok true)
    (hMX : PromptMatched X id uuid) (hM : PromptMatched new id uuid)
    (hout : ∀ i res, Event.read i Std.out res ∉ X) :
    callbacks new ≤ 1
      ∧ (ans = .ok false → callbacks new = 0)
      ∧ (ans = .ok true → (callbacks new = 1 ↔ PromptMatched new id uuid))
      ∧ (∀ pre e post, new = pre ++ Event.callback e :: post →
          PromptMatched pre id uuid ∧ ∀ i res, Event.read i Std.out res ∉ pre) := by
  have hc : callbacks new = 1 := by
    rw [hnew, callbacks_append]
    have : callbacks (Event.callback e' :: Y) = 1 + callbacks Y := by
      simp [callbacks, Event.isCallback, Nat.add_comm]
    rw [this, hX, hY]
  refine ⟨by omega, fun h => ?_, fun _ => ⟨fun _ => hM, fun _ => hc⟩, ?_⟩
  · rw [hans] at h
    simp at h
  · intro pre e post h
    rw [hnew] at h
    obtain ⟨h1, _⟩ := split_at_callback X Y e' hX hY pre post e h
    rw [h1]
    exact ⟨hMX, hout⟩

theorem callbacks_cons (ev : Event) (t : Trace) :
    callbacks (ev :: t) = (if ev.isCallback then 1 else 0) + callbacks t := by
  simp [callbacks, List.countP_cons, Nat.add_comm]

theorem callbacks_nil : callbacks [] = 0 := rfl

theorem readsOf_readEvents_out_err (id : Nat) (xs : List ReadResult) :
    readsOf (readEvents id Std.out xs) id Std.err = [] :=
  readsOf_readEvents_ne id id Std.out Std.err xs (by simp)

theorem readsOf_readEvents_err_out (id id' : Nat) (xs : List ReadResult) :
    readsOf (readEvents id Std.err xs) id' Std.out = [] :=
  readsOf_readEvents_ne id id' Std.err Std.out xs (by simp)

theorem not_mem_readEvents_err (id i : Nat) (res : ReadResult) (xs : List ReadResult) :
    Event.read i Std.out res ∉ readEvents id Std.err xs := by
  simp [mem_readEvents]

/-- The events up to a matched prompt show the match. -/
theorem promptMatched_prefix (w : World) (r : Option GoError) (needs : Bool) (uuid : GoString)
    (q : GoString → GoString) (cmd : List GoString) (reads : List ReadResult) (Z : Trace)
    (hfree : ErrorFree reads) (hm : strip (bytesOf reads) = uuid)
    (hZ : readsOf Z (w.calls + 1) Std.err = []) :
    PromptMatched (probeEvents w r
      ++ (startedEvents needs uuid q cmd (w.calls + 1) ++ readEvents (w.calls + 1) Std.err reads)
      ++ Z) (w.calls + 1) uuid := by
  have hR : readsOf (probeEvents w r
      ++ (startedEvents needs uuid q cmd (w.calls + 1) ++ readEvents (w.calls + 1) Std.err reads)
      ++ Z) (w.calls + 1) Std.err = reads := by
    simp [probeEvents, readsOf_newSession, readsOf_run, readsOf_nil, readsOf_append,
      readsOf_stdinPipe, readsOf_stdoutPipe, readsOf_stderrPipe, readsOf_start,
      startedEvents, readsOf_readEvents, hZ]
  refine ⟨⟨SudoRun.startCommand needs uuid q cmd, by simp [startedEvents]⟩, ?_, ?_⟩
  · rw [hR]; exact hfree
  · simp only [consumed]; rw [hR]; exact hm

theorem started_no_out_read (w : World) (r : Option GoError) (needs : Bool) (uuid : GoString)
    (q : GoString → GoString) (cmd : List GoString) (reads : List ReadResult) :
    ∀ i res, Event.read i Std.out res ∉ probeEvents w r
      ++ (startedEvents needs uuid q cmd (w.calls + 1)
        ++ readEvents (w.calls + 1) Std.err reads) := by
  intro i res
  simp [probeEvents, startedEvents, mem_readEvents]

/-- The callback discipline of a run that got as far as the block
`if sudoNeedsPass { ... }` and added the events `Z` after it. -/
theorem prompt_discipline (w : World) (r : Option GoError) (needs : Bool)
    (cb : SudoPasswordCallback) (uuid : GoString) (q : GoString → GoString)
    (cmd : List GoString) (s : SessionScript) (evs Z : Trace) (e : Option GoError)
    (ans : Except GoError Bool) (hp : PromptPath needs cb uuid (w.calls + 1) s evs e)
    (hans : ans = .ok needs) (hZc : callbacks Z = 0)
    (hZr : readsOf Z (w.calls + 1) Std.err = []) :
    callbacks (probeEvents w r ++ (startedEvents needs uuid q cmd (w.calls + 1) ++ evs ++ Z)) ≤ 1
      ∧ (ans = .ok false →
          callbacks (probeEvents w r
            ++ (startedEvents needs uuid q cmd (w.calls + 1) ++ evs ++ Z)) = 0)
      ∧ (ans = .ok true →
          (callbacks (probeEvents w r
              ++ (startedEvents needs uuid q cmd (w.calls + 1) ++ evs ++ Z)) = 1
            ↔ PromptMatched (probeEvents w r
              ++ (startedEvents needs uuid q cmd (w.calls + 1) ++ evs ++ Z)) (w.calls + 1) uuid))
      ∧ (∀ pre e' post,
          probeEvents w r ++ (startedEvents needs uuid q cmd (w.calls + 1) ++ evs ++ Z)
            = pre ++ Event.callback e' :: post →
          PromptMatched pre (w.calls + 1) uuid ∧ ∀ i res, Event.read i Std.out res ∉ pre) := by
  have hReads : ∀ reads : List ReadResult,
      readsOf (probeEvents w r ++ (startedEvents needs uuid q cmd (w.calls + 1)
        ++ readEvents (w.calls + 1) Std.err reads ++ Z)) (w.calls + 1) Std.err = reads := by
    intro reads
    simp [probeEvents, readsOf_newSession, readsOf_run, readsOf_nil, readsOf_append,
      readsOf_stdinPipe, readsOf_stdoutPipe, readsOf_stderrPipe, readsOf_start,
      startedEvents, readsOf_readEvents, hZr]
  have hC0 : ∀ reads : List ReadResult,
      callbacks (probeEvents w r ++ (startedEvents needs uuid q cmd (w.calls + 1)
        ++ readEvents (w.calls + 1) Std.err reads)) = 0 := by
    intro reads
    simp [probeEvents, startedEvents, callbacks_append, callbacks_cons, callbacks_nil,
      callbacks_readEvents, Event.isCallback]
  cases hp with
  | skipped hn =>
      refine callback_discipline_none ans _ _ uuid ?_ ?_
      · simp [probeEvents, startedEvents, callbacks_append, callbacks_cons, callbacks_nil,
          Event.isCallback, hZc]
      · intro h
        rw [hans, hn] at h
        simp at h
  | scanFailed hn reads c hf =>
      refine callback_discipline_none ans _ _ uuid ?_ ?_
      · simp [probeEvents, startedEvents, callbacks_append, callbacks_cons, callbacks_nil,
          callbacks_readEvents, Event.isCallback, hZc]
      · intro _ hM
        have := hM.2.1
        rw [hReads] at this
        exact hf.not_errorFree this
  | noPrompt hn reads hfree hd =>
      refine callback_discipline_none ans _ _ uuid ?_ ?_
      · simp [probeEvents, startedEvents, callbacks_append, callbacks_cons, callbacks_nil,
          callbacks_readEvents, Event.isCallback, hZc]
      · intro _ hM
        have := hM.2.2
        simp only [consumed] at this
        rw [hReads] at this
        exact hd.strip_ne this
  | callbackFailed hn reads hfree hm c hc =>
      refine callback_discipline_one ans _
        (probeEvents w r ++ (startedEvents needs uuid q cmd (w.calls + 1)
          ++ readEvents (w.calls + 1) Std.err reads))
        Z (w.calls + 1) uuid (some c) (by simp [List.append_assoc]) (hC0 reads) hZc
        (by rw [hans, hn]) ?_ ?_ (started_no_out_read w r needs uuid q cmd reads)
      · have := promptMatched_prefix w r needs uuid q cmd reads [] hfree hm rfl
        simpa using this
      · have := promptMatched_prefix w r needs uuid q cmd reads
          (Event.callback (some c) :: Z) hfree hm (by rw [readsOf_callback, hZr])
        simpa [List.append_assoc] using this
  | writeFailed hn reads hfree hm pwd hc m c hw =>
      refine callback_discipline_one ans _
        (probeEvents w r ++ (startedEvents needs uuid q cmd (w.calls + 1)
          ++ readEvents (w.calls + 1) Std.err reads))
        (Event.write (w.calls + 1) (pwd ++ ascii "\n") m (some c) :: Z) (w.calls + 1) uuid none
        (by simp [List.append_assoc]) (hC0 reads)
        (by rw [callbacks_cons, hZc]; rfl)
        (by rw [hans, hn]) ?_ ?_ (started_no_out_read w r needs uuid q cmd reads)
      · have := promptMatched_prefix w r needs uuid q cmd reads [] hfree hm rfl
        simpa using this
      · have := promptMatched_prefix w r needs uuid q cmd reads
          (Event.callback none :: Event.write (w.calls + 1) (pwd ++ ascii "\n") m (some c) :: Z)
          hfree hm (by rw [readsOf_callback, readsOf_write, hZr])
        simpa [List.append_assoc] using this
  | writeShort hn reads hfree hm pwd hc m hw hlen =>
      refine callback_discipline_one ans _
        (probeEvents w r ++ (startedEvents needs uuid q cmd (w.calls + 1)
          ++ readEvents (w.calls + 1) Std.err reads))
        (Event.write (w.calls + 1) (pwd ++ ascii "\n") m none :: Z) (w.calls + 1) uuid none
        (by simp [List.append_assoc]) (hC0 reads)
        (by rw [callbacks_cons, hZc]; rfl)
        (by rw [hans, hn]) ?_ ?_ (started_no_out_read w r needs uuid q cmd reads)
      · have := promptMatched_prefix w r needs uuid q cmd reads [] hfree hm rfl
        simpa using this
      · have := promptMatched_prefix w r needs uuid q cmd reads
          (Event.callback none :: Event.write (w.calls + 1) (pwd ++ ascii "\n") m none :: Z)
          hfree hm (by rw [readsOf_callback, readsOf_write, hZr])
        simpa [List.append_assoc] using this
  | sent hn reads hfree hm pwd hc m hw hlen =>
      refine callback_discipline_one ans _
        (probeEvents w r ++ (startedEvents needs uuid q cmd (w.calls + 1)
          ++ readEvents (w.calls + 1) Std.err reads))
        (Event.write (w.calls + 1) (pwd ++ ascii "\n") m none :: Z) (w.calls + 1) uuid none
        (by simp [List.append_assoc]) (hC0 reads)
        (by rw [callbacks_cons, hZc]; rfl)
        (by rw [hans, hn]) ?_ ?_ (started_no_out_read w r needs uuid q cmd reads)
      · have := promptMatched_prefix w r needs uuid q cmd reads [] hfree hm rfl
        simpa using this
      · have := promptMatched_prefix w r needs uuid q cmd reads
          (Event.callback none :: Event.write (w.calls + 1) (pwd ++ ascii "\n") m none :: Z)
          hfree hm (by rw [readsOf_callback, readsOf_write, hZr])
        simpa [List.append_assoc] using this

/-- C5: in every run the password callback is called at most once; it is not called
when the probe answers that no password is required; when the probe answers that
one is required, it is called exactly once if and only if the nonce token was
matched on the error stream; and whenever it is called, the events before the call
already hold the whole match and no read of an output stream. -/
theorem SudoRun_callback_discipline (w : World) (cb : SudoPasswordCallback) (uuid : GoString)
    (q : GoString → GoString) (cmd : List GoString) :
    ∃ new, (SudoRun w cb uuid q cmd).2.trace = w.trace ++ new
      ∧ (callbacks new ≤ 1
        ∧ ((CheckSudoNeedsPassword w).1 = .ok false → callbacks new = 0)
        ∧ ((CheckSudoNeedsPassword w).1 = .ok true →
            (callbacks new = 1 ↔ PromptMatched new (w.calls + 1) uuid))
        ∧ (∀ pre e post, new = pre ++ Event.callback e :: post →
            PromptMatched pre (w.calls + 1) uuid ∧ ∀ i res, Event.read i Std.out res ∉ pre)) := by
  have hnone : ∀ new : Trace, callbacks new = 0 →
      (∀ c, Event.start (w.calls + 1) c none ∉ new) →
      callbacks new ≤ 1
        ∧ ((CheckSudoNeedsPassword w).1 = .ok false → callbacks new = 0)
        ∧ ((CheckSudoNeedsPassword w).1 = .ok true →
            (callbacks new = 1 ↔ PromptMatched new (w.calls + 1) uuid))
        ∧ (∀ pre e post, new = pre ++ Event.callback e :: post →
            PromptMatched pre (w.calls + 1) uuid ∧ ∀ i res, Event.read i Std.out res ∉ pre) := by
    intro new h0 hs
    refine callback_discipline_none _ new _ uuid h0 ?_
    rintro _ ⟨⟨c, hc⟩, _⟩
    exact hs c hc
  refine SudoRun_cases w cb uuid q cmd
    (fun _ new =>
      callbacks new ≤ 1
        ∧ ((CheckSudoNeedsPassword w).1 = .ok false → callbacks new = 0)
        ∧ ((CheckSudoNeedsPassword w).1 = .ok true →
            (callbacks new = 1 ↔ PromptMatched new (w.calls + 1) uuid))
        ∧ (∀ pre e post, new = pre ++ Event.callback e :: post →
            PromptMatched pre (w.calls + 1) uuid ∧ ∀ i res, Event.read i Std.out res ∉ pre))
    ?_ ?_ ?_ ?_ ?_ ?_ ?_ ?_ ?_ ?_ ?_
  · intro e _
    exact hnone _ (by simp [callbacks_cons, callbacks_nil, Event.isCallback]) (by simp)
  · intro p e _ _
    exact hnone _ (by simp [probeEvents, callbacks_cons, callbacks_nil, Event.isCallback])
      (by simp [probeEvents])
  · intro p needs e _ _
    exact hnone _ (by simp [probeEvents, callbacks_append, callbacks_cons, callbacks_nil,
      Event.isCallback]) (by simp [probeEvents])
  · intro p needs e _ _
    exact hnone _ (by simp [probeEvents, callbacks_append, callbacks_cons, callbacks_nil,
      Event.isCallback]) (by simp [probeEvents])
  · intro p needs e _ _
    exact hnone _ (by simp [probeEvents, closeEvents, callbacks_append, callbacks_cons,
      callbacks_nil, Event.isCallback]) (by simp [probeEvents, closeEvents])
  · intro p needs e _ _
    exact hnone _ (by simp [probeEvents, closeEvents, callbacks_append, callbacks_cons,
      callbacks_nil, Event.isCallback]) (by simp [probeEvents, closeEvents])
  · intro p needs e _ _
    exact hnone _ (by simp [probeEvents, closeEvents, callbacks_append, callbacks_cons,
      callbacks_nil, Event.isCallback]) (by simp [probeEvents, closeEvents])
  · intro p s needs evs e hs ha hp
    exact prompt_discipline w p.runResult needs cb uuid q cmd s evs (closeEvents (w.calls + 1))
      (some e) _ hp (by rw [CheckSudoNeedsPassword_answer w p hs, ha])
      (by simp [closeEvents, callbacks_cons, callbacks_nil, Event.isCallback])
      (by simp [closeEvents, readsOf_closeStdin, readsOf_closeSession, readsOf_nil])
  · intro p s needs evs reads e hs ha hp hf
    have := prompt_discipline w p.runResult needs cb uuid q cmd s evs
      (readEvents (w.calls + 1) Std.out reads ++ closeEvents (w.calls + 1))
      none (CheckSudoNeedsPassword w).1 hp (by rw [CheckSudoNeedsPassword_answer w p hs, ha])
      (by simp [closeEvents, callbacks_append, callbacks_readEvents, callbacks_cons,
        callbacks_nil, Event.isCallback])
      (by simp [closeEvents, readsOf_append, readsOf_readEvents_out_err, readsOf_closeStdin,
        readsOf_closeSession, readsOf_nil])
    simpa only [List.append_assoc] using this
  · intro p s needs evs reads hs ha hp hfree hd
    have := prompt_discipline w p.runResult needs cb uuid q cmd s evs
      (readEvents (w.calls + 1) Std.out reads ++ closeEvents (w.calls + 1))
      none (CheckSudoNeedsPassword w).1 hp (by rw [CheckSudoNeedsPassword_answer w p hs, ha])
      (by simp [closeEvents, callbacks_append, callbacks_readEvents, callbacks_cons,
        callbacks_nil, Event.isCallback])
      (by simp [closeEvents, readsOf_append, readsOf_readEvents_out_err, readsOf_closeStdin,
        readsOf_closeSession, readsOf_nil])
    simpa only [List.append_assoc] using this
  · intro p s needs evs reads so se hs ha hp hfree hm
    exact prompt_discipline w p.runResult needs cb uuid q cmd s evs
      (readEvents (w.calls + 1) Std.out reads)
      none _ hp (by rw [CheckSudoNeedsPassword_answer w p hs, ha])
      (callbacks_readEvents _ _ _) (readsOf_readEvents_out_err _ _)

theorem password_run :
    (SudoRun (passwordWorld (ascii "nonce") (ascii "READY\n"))
        (SudoStaticPasswordCallback (ascii "pw")) (ascii "nonce") exampleQuote [ascii "ls"]).2.trace
      = [Event.newSession 0 none,
          Event.run 0 (ascii "sudo -n -v") (some (GoError.exitError 1)),
          Event.newSession 1 none, Event.stdinPipe 1 none, Event.stdoutPipe 1 none,
          Event.stderrPipe 1 none,
          Event.start 1 (SudoRun.startCommand true (ascii "nonce") exampleQuote [ascii "ls"]) none,
          Event.read 1 Std.err ⟨some 110, none⟩, Event.read 1 Std.err ⟨some 111, none⟩,
          Event.read 1 Std.err ⟨some 110, none⟩, Event.read 1 Std.err ⟨some 99, none⟩,
          Event.read 1 Std.err ⟨some 101, none⟩, Event.callback none,
          Event.write 1 [112, 119, 10] 3 none,
          Event.read 1 Std.out ⟨some 82, none⟩, Event.read 1 Std.out ⟨some 69, none⟩,
          Event.read 1 Std.out ⟨some 65, none⟩, Event.read 1 Std.out ⟨some 68, none⟩,
          Event.read 1 Std.out ⟨some 89, none⟩, Event.read 1 Std.out ⟨some 10, none⟩] := by
  have hpw : ascii "pw" ++ ascii "\n" = [112, 119, 10] := by decide
  simp [SudoRun, CheckSudoNeedsPassword, World.NewSession, passwordWorld, freshWorld,
    scriptedSession, Session.Run, World.log, GoError.isExitError, SudoRun.withSession,
    openSessionPipes, Session.StdinPipe, Session.StdoutPipe, Session.StderrPipe, SudoRun.body,
    Session.Start, SudoRun.prompt, ascii_ready, ascii_nonce, expectOnly_end, expectOnly_cons,
    expectOnly_nil, RunResult.failed, callPassword, SudoStaticPasswordCallback,
    ioCopy, hpw]

theorem SudoRun_callback_discipline_witness :
    (CheckSudoNeedsPassword (passwordWorld (ascii "nonce") (ascii "READY\n"))).1 = .ok true
    ∧ PromptMatched (SudoRun (passwordWorld (ascii "nonce") (ascii "READY\n"))
        (SudoStaticPasswordCallback (ascii "pw")) (ascii "nonce") exampleQuote
        [ascii "ls"]).2.trace 1 (ascii "nonce")
    ∧ callbacks (SudoRun (passwordWorld (ascii "nonce") (ascii "READY\n"))
        (SudoStaticPasswordCallback (ascii "pw")) (ascii "nonce") exampleQuote
        [ascii "ls"]).2.trace = 1 := by
  obtain ⟨new, htr, _, _, hiff, _⟩ := SudoRun_callback_discipline
    (passwordWorld (ascii "nonce") (ascii "READY\n")) (SudoStaticPasswordCallback (ascii "pw"))
    (ascii "nonce") exampleQuote [ascii "ls"]
  have hnil : (passwordWorld (ascii "nonce") (ascii "READY\n")).trace = [] := rfl
  rw [hnil, List.nil_append] at htr
  have hprobe : (CheckSudoNeedsPassword (passwordWorld (ascii "nonce") (ascii "READY\n"))).1
      = .ok true := rfl
  have hM : PromptMatched (SudoRun (passwordWorld (ascii "nonce") (ascii "READY\n"))
      (SudoStaticPasswordCallback (ascii "pw")) (ascii "nonce") exampleQuote
      [ascii "ls"]).2.trace 1 (ascii "nonce") := by
    rw [password_run]
    refine ⟨⟨SudoRun.startCommand true (ascii "nonce") exampleQuote [ascii "ls"], by simp⟩,
      ?_, ?_⟩
    · intro x hx
      simp [readsOf] at hx
      rcases hx with rfl | rfl | rfl | rfl | rfl <;> rfl
    · simp [consumed, readsOf, bytesOf, strip, ascii_nonce]
  refine ⟨hprobe, hM, ?_⟩
  rw [htr] at hM ⊢
  exact (hiff hprobe).2 hM

end Sshsudo
